import Mathlib

/-!
Shallow embedding of the foreign-memory marshaling layer of `hwinfo.rs`.

The Rust library queries a native C hardware-detection library.  We model the
foreign world explicitly:

* a C string pointer (`*mut c_char`) becomes `Option (List Nat)` — `none` is a
  null pointer, `some bs` is a pointer to the bytes `bs` up to (excluding) the
  null terminator;
* a pointer to an array of `T` becomes `Option (Nat × (Nat → T))`: `none` is
  null, otherwise a pointer identity (a `Nat` tag naming the allocation) paired
  with the memory contents indexed by element;
* a Rust `String` becomes the list of decoded Unicode code points;
* each query operation takes an environment recording what the foreign entry
  points return, and yields its result together with the list of foreign calls
  it performed, so that acquire/release discipline is visible in the trace.

Machine integers (`i32`, `i64`, `u32`, C `int`) are modelled as `Int`: the code
only copies them verbatim, never computes with them.  `f64` values are likewise
only passed through, so they are modelled as `Rat`.
-/

/-- Model of Rust's `std::str::Utf8Error`: records the byte index up to which
the input was valid (`valid_up_to`). -/
structure Utf8Error where
  valid_up_to : Nat
deriving DecidableEq

/-- Model of the `HwinfoError` enum of `hwinfo.rs`: `DataUnavailable` carries
the diagnostic message built at the call site, `InvalidString` wraps the
underlying UTF-8 validation failure. -/
inductive HwinfoError where
  | DataUnavailable (msg : String)
  | InvalidString (e : Utf8Error)
deriving DecidableEq

/-- Continuation byte test for UTF-8: `0x80 ≤ b ≤ 0xBF`. -/
def isCont (b : Nat) : Bool := 0x80 ≤ b && b ≤ 0xBF

/-- UTF-8 validation and decoding, as performed by Rust's `str::from_utf8`
(used by `CStr::to_str`), at byte offset `i`: returns the decoded scalar
values, or the byte index at which the first invalid sequence starts. -/
def utf8DecodeAux : Nat → List Nat → Except Utf8Error (List Nat)
  | _, [] => .ok []
  | i, b :: rest =>
    if b ≤ 0x7F then
      match utf8DecodeAux (i + 1) rest with
      | .ok cs => .ok (b :: cs)
      | .error e => .error e
    else if 0xC2 ≤ b && b ≤ 0xDF then
      match rest with
      | b1 :: rest2 =>
        if isCont b1 then
          match utf8DecodeAux (i + 2) rest2 with
          | .ok cs => .ok (((b - 0xC0) * 64 + (b1 - 0x80)) :: cs)
          | .error e => .error e
        else .error ⟨i⟩
      | [] => .error ⟨i⟩
    else if 0xE0 ≤ b && b ≤ 0xEF then
      match rest with
      | b1 :: b2 :: rest3 =>
        if (if b = 0xE0 then 0xA0 ≤ b1 && b1 ≤ 0xBF
            else if b = 0xED then 0x80 ≤ b1 && b1 ≤ 0x9F
            else isCont b1) && isCont b2 then
          match utf8DecodeAux (i + 3) rest3 with
          | .ok cs => .ok (((b - 0xE0) * 4096 + (b1 - 0x80) * 64 + (b2 - 0x80)) :: cs)
          | .error e => .error e
        else .error ⟨i⟩
      | _ => .error ⟨i⟩
    else if 0xF0 ≤ b && b ≤ 0xF4 then
      match rest with
      | b1 :: b2 :: b3 :: rest4 =>
        if (if b = 0xF0 then 0x90 ≤ b1 && b1 ≤ 0xBF
            else if b = 0xF4 then 0x80 ≤ b1 && b1 ≤ 0x8F
            else isCont b1) && isCont b2 && isCont b3 then
          match utf8DecodeAux (i + 4) rest4 with
          | .ok cs =>
            .ok (((b - 0xF0) * 262144 + (b1 - 0x80) * 4096 + (b2 - 0x80) * 64 + (b3 - 0x80)) :: cs)
          | .error e => .error e
        else .error ⟨i⟩
      | _ => .error ⟨i⟩
    else .error ⟨i⟩

/-- UTF-8 validation of a full byte sequence, starting at offset 0. -/
def utf8Decode (bs : List Nat) : Except Utf8Error (List Nat) :=
  utf8DecodeAux 0 bs

/-- Model of `c_char_to_string` in `hwinfo.rs`: a null pointer yields the empty
string (success); otherwise the bytes are UTF-8 validated, a failure being
wrapped in `HwinfoError.InvalidString`. -/
def c_char_to_string : Option (List Nat) → Except HwinfoError (List Nat)
  | none => .ok []
  | some bs =>
    match utf8Decode bs with
    | .ok s => .ok s
    | .error e => .error (HwinfoError.InvalidString e)

/-- Model of the bindgen-generated `C_StringArray` descriptor.
Modelled from the spec: the generated `bindings.rs` is not part of `src/`; the
spec describes it as a small descriptor struct carrying a pointer-to-pointers
and a signed count, which is exactly how `hwinfo.rs` uses its `strings` and
`count` fields. -/
structure C_StringArray where
  strings : Option (Nat → Option (List Nat))
  count : Int

/-- Left-to-right collection of fallible results, as Rust's
`Iterator::collect::<Result<Vec<_>, _>>()`: stops at the first error. -/
def collectExcept {α β ε : Type} (f : α → Except ε β) : List α → Except ε (List β)
  | [] => .ok []
  | a :: l =>
    match f a with
    | .error e => .error e
    | .ok b =>
      match collectExcept f l with
      | .error e => .error e
      | .ok bs => .ok (b :: bs)

/-- Model of `c_string_array_to_vec` in `hwinfo.rs`: a null `strings` pointer
or a non-positive `count` yields the empty vector (success); otherwise the
`count` contiguous string pointers are each decoded with `c_char_to_string`. -/
def c_string_array_to_vec (arr : C_StringArray) : Except HwinfoError (List (List Nat)) :=
  match arr.strings with
  | none => .ok []
  | some mem =>
    if arr.count ≤ 0 then .ok []
    else collectExcept c_char_to_string ((List.range arr.count.toNat).map mem)

theorem collectExcept_ok_iff {α β ε : Type} (f : α → Except ε β) :
    ∀ (l : List α) (r : List β),
      collectExcept f l = .ok r ↔ List.Forall₂ (fun a b => f a = .ok b) l r := by
  intro l
  induction l with
  | nil =>
    intro r
    constructor
    · intro h
      simp only [collectExcept] at h
      cases h
      exact List.Forall₂.nil
    · intro h
      cases h
      rfl
  | cons a l ih =>
    intro r
    constructor
    · intro h
      simp only [collectExcept] at h
      cases hfa : f a with
      | error e => rw [hfa] at h; cases h
      | ok b =>
        rw [hfa] at h
        cases hcl : collectExcept f l with
        | error e => rw [hcl] at h; cases h
        | ok bs =>
          rw [hcl] at h
          cases h
          exact List.Forall₂.cons hfa ((ih bs).mp hcl)
    · intro h
      cases h with
      | cons hab htl =>
        simp only [collectExcept, hab, (ih _).mpr htl]

theorem collectExcept_error_iff {α β ε : Type} (f : α → Except ε β) :
    ∀ (l : List α) (e : ε),
      collectExcept f l = .error e ↔
        ∃ l1 a l2, l = l1 ++ a :: l2 ∧ (∀ x ∈ l1, ∃ b, f x = .ok b) ∧ f a = .error e := by
  intro l
  induction l with
  | nil =>
    intro e
    constructor
    · intro h; simp only [collectExcept] at h; cases h
    · rintro ⟨l1, a, l2, habs, -, -⟩
      exact absurd habs (List.append_ne_nil_of_right_ne_nil l1 (List.cons_ne_nil a l2)).symm
  | cons a l ih =>
    intro e
    constructor
    · intro h
      simp only [collectExcept] at h
      cases hfa : f a with
      | error e' =>
        rw [hfa] at h
        cases h
        exact ⟨[], a, l, rfl, by simp, hfa⟩
      | ok b =>
        rw [hfa] at h
        cases hcl : collectExcept f l with
        | error e' =>
          rw [hcl] at h
          cases h
          obtain ⟨l1, x, l2, hsplit, hoks, hx⟩ := (ih e).mp hcl
          refine ⟨a :: l1, x, l2, by rw [hsplit]; rfl, ?_, hx⟩
          intro y hy
          rcases List.mem_cons.mp hy with hya | hyl
          · exact ⟨b, hya ▸ hfa⟩
          · exact hoks y hyl
        | ok bs => rw [hcl] at h; cases h
    · rintro ⟨l1, x, l2, hsplit, hoks, hx⟩
      cases l1 with
      | nil =>
        cases hsplit
        simp only [collectExcept, hx]
      | cons a1 l1' =>
        rw [List.cons_append] at hsplit
        injection hsplit with ha hl
        subst ha
        obtain ⟨b, hb⟩ := hoks a (List.mem_cons_self a l1')
        have htl : collectExcept f l = .error e := by
          refine (ih e).mpr ⟨l1', x, l2, hl, ?_, hx⟩
          intro y hy
          exact hoks y (List.mem_cons_of_mem _ hy)
        simp only [collectExcept, hb, htl]

/-- Index form of the error characterization of `collectExcept` on a mapped
range: the first failing element, in index order, determines the error. -/
theorem collectExcept_range_error_iff {β ε : Type} {T : Type} (f : T → Except ε β)
    (mem : Nat → T) (n : Nat) (e : ε) :
    collectExcept f ((List.range n).map mem) = .error e ↔
      ∃ j, j < n ∧ f (mem j) = .error e ∧ ∀ i, i < j → ∃ b, f (mem i) = .ok b := by
  rw [collectExcept_error_iff]
  constructor
  · rintro ⟨l1, a, l2, hsplit, hoks, ha⟩
    have hjlt : l1.length < n := by
      have := congrArg List.length hsplit
      simp at this
      omega
    have hgj : ((List.range n).map mem)[l1.length]? = some a := by
      rw [hsplit, List.getElem?_append_right (le_refl _)]
      simp
    have hgj2 : ((List.range n).map mem)[l1.length]? = some (mem l1.length) := by
      simp [List.getElem?_range hjlt]
    have haj : a = mem l1.length := by
      rw [hgj] at hgj2
      exact Option.some.inj hgj2
    refine ⟨l1.length, hjlt, haj ▸ ha, ?_⟩
    intro i hi
    apply hoks
    have h1 : ((List.range n).map mem)[i]? = some (mem i) := by
      simp [List.getElem?_range (lt_trans hi hjlt)]
    rw [hsplit, List.getElem?_append_left hi] at h1
    exact List.getElem?_mem h1
  · rintro ⟨j, hj, hfj, hoks⟩
    refine ⟨(List.range j).map mem, mem j, (List.range (n - (j + 1))).map (fun k => mem (j + 1 + k)),
      ?_, ?_, hfj⟩
    · conv_lhs => rw [show n = (j + 1) + (n - (j + 1)) by omega]
      rw [List.range_add, List.map_append, List.range_succ, List.map_append, List.map_map]
      simp [Function.comp]
    · intro x hx
      simp only [List.mem_map, List.mem_range] at hx
      obtain ⟨i, hi, rfl⟩ := hx
      exact hoks i hi

/-- Model of the bindgen-generated `C_CPU` struct.
Modelled from the spec: `bindings.rs` is generated at build time; field names
and shapes are those `hwinfo.rs` reads. -/
structure C_CPU where
  id : Int
  vendor : Option (List Nat)
  modelName : Option (List Nat)
  numPhysicalCores : Int
  numLogicalCores : Int
  maxClockSpeed_MHz : Int
  regularClockSpeed_MHz : Int
  L1CacheSize_Bytes : Int
  L2CacheSize_Bytes : Int
  L3CacheSize_Bytes : Int
  flags : C_StringArray

/-- Local owned `Cpu` record of `hwinfo.rs`. -/
structure Cpu where
  id : Int
  vendor : List Nat
  model_name : List Nat
  num_physical_cores : Int
  num_logical_cores : Int
  max_clock_speed_mhz : Int
  regular_clock_speed_mhz : Int
  l1_cache_size_bytes : Int
  l2_cache_size_bytes : Int
  l3_cache_size_bytes : Int
  flags : List (List Nat)
deriving DecidableEq

/-- Model of `impl TryFrom<&C_CPU> for Cpu`: fallible fields are decoded in
struct-literal order (vendor, model name, then flags), short-circuiting on the
first failure. -/
def Cpu.try_from (c : C_CPU) : Except HwinfoError Cpu :=
  match c_char_to_string c.vendor with
  | .error e => .error e
  | .ok vendor =>
    match c_char_to_string c.modelName with
    | .error e => .error e
    | .ok modelName =>
      match c_string_array_to_vec c.flags with
      | .error e => .error e
      | .ok flags =>
        .ok { id := c.id, vendor := vendor, model_name := modelName,
              num_physical_cores := c.numPhysicalCores,
              num_logical_cores := c.numLogicalCores,
              max_clock_speed_mhz := c.maxClockSpeed_MHz,
              regular_clock_speed_mhz := c.regularClockSpeed_MHz,
              l1_cache_size_bytes := c.L1CacheSize_Bytes,
              l2_cache_size_bytes := c.L2CacheSize_Bytes,
              l3_cache_size_bytes := c.L3CacheSize_Bytes,
              flags := flags }

/-- Model of the bindgen-generated `C_OS` struct.
Modelled from the spec: fields as read by `hwinfo.rs`. -/
structure C_OS where
  name : Option (List Nat)
  version : Option (List Nat)
  kernel : Option (List Nat)
  is32bit : Bool
  is64bit : Bool
  isLittleEndian : Bool

/-- Local owned `Os` record of `hwinfo.rs`. -/
structure Os where
  name : List Nat
  version : List Nat
  kernel : List Nat
  is_32_bit : Bool
  is_64_bit : Bool
  is_little_endian : Bool
deriving DecidableEq

/-- Model of `impl TryFrom<&C_OS> for Os`. -/
def Os.try_from (c : C_OS) : Except HwinfoError Os :=
  match c_char_to_string c.name with
  | .error e => .error e
  | .ok name =>
    match c_char_to_string c.version with
    | .error e => .error e
    | .ok version =>
      match c_char_to_string c.kernel with
      | .error e => .error e
      | .ok kernel =>
        .ok { name := name, version := version, kernel := kernel,
              is_32_bit := c.is32bit, is_64_bit := c.is64bit,
              is_little_endian := c.isLittleEndian }

/-- Model of the bindgen-generated `C_GPU` struct.
Modelled from the spec: fields as read by `hwinfo.rs`. -/
structure C_GPU where
  id : Int
  vendor : Option (List Nat)
  name : Option (List Nat)
  driverVersion : Option (List Nat)
  memory_Bytes : Int
  frequency_MHz : Int
  num_cores : Int
  vendor_id : Option (List Nat)
  device_id : Option (List Nat)

/-- Local owned `Gpu` record of `hwinfo.rs`. -/
structure Gpu where
  id : Int
  vendor : List Nat
  name : List Nat
  driver_version : List Nat
  memory_bytes : Int
  frequency_mhz : Int
  num_cores : Int
  vendor_id : List Nat
  device_id : List Nat
deriving DecidableEq

/-- Model of `impl TryFrom<&C_GPU> for Gpu`: fallible fields decoded in
struct-literal order (vendor, name, driver version, vendor id, device id). -/
def Gpu.try_from (c : C_GPU) : Except HwinfoError Gpu :=
  match c_char_to_string c.vendor with
  | .error e => .error e
  | .ok vendor =>
    match c_char_to_string c.name with
    | .error e => .error e
    | .ok name =>
      match c_char_to_string c.driverVersion with
      | .error e => .error e
      | .ok driverVersion =>
        match c_char_to_string c.vendor_id with
        | .error e => .error e
        | .ok vendorId =>
          match c_char_to_string c.device_id with
          | .error e => .error e
          | .ok deviceId =>
            .ok { id := c.id, vendor := vendor, name := name,
                  driver_version := driverVersion,
                  memory_bytes := c.memory_Bytes,
                  frequency_mhz := c.frequency_MHz,
                  num_cores := c.num_cores,
                  vendor_id := vendorId, device_id := deviceId }

/-- Model of the bindgen-generated `C_RAM_Module` struct.
Modelled from the spec: fields as read by `hwinfo.rs`. -/
structure C_RAM_Module where
  id : Int
  vendor : Option (List Nat)
  name : Option (List Nat)
  model : Option (List Nat)
  serial_number : Option (List Nat)
  total_Bytes : Int
  frequency_Hz : Int

/-- Local owned `RamModule` record of `hwinfo.rs`. -/
structure RamModule where
  id : Int
  vendor : List Nat
  name : List Nat
  model : List Nat
  serial_number : List Nat
  total_bytes : Int
  frequency_hz : Int
deriving DecidableEq

/-- Model of `impl TryFrom<&C_RAM_Module> for RamModule`. -/
def RamModule.try_from (c : C_RAM_Module) : Except HwinfoError RamModule :=
  match c_char_to_string c.vendor with
  | .error e => .error e
  | .ok vendor =>
    match c_char_to_string c.name with
    | .error e => .error e
    | .ok name =>
      match c_char_to_string c.model with
      | .error e => .error e
      | .ok model =>
        match c_char_to_string c.serial_number with
        | .error e => .error e
        | .ok serialNumber =>
          .ok { id := c.id, vendor := vendor, name := name, model := model,
                serial_number := serialNumber,
                total_bytes := c.total_Bytes, frequency_hz := c.frequency_Hz }

/-- Model of the bindgen-generated `C_MemoryInfo` struct, whose `modules`
pointer and `module_count` form a count/pointer pair.
Modelled from the spec: fields as read by `hwinfo.rs`. -/
structure C_MemoryInfo where
  total_Bytes : Int
  free_Bytes : Int
  available_Bytes : Int
  modules : Option (Nat → C_RAM_Module)
  module_count : Int

/-- Local owned `MemoryInfo` record of `hwinfo.rs`. -/
structure MemoryInfo where
  total_bytes : Int
  free_bytes : Int
  available_bytes : Int
  modules : List RamModule
deriving DecidableEq

/-- Model of `impl TryFrom<&C_MemoryInfo> for MemoryInfo`: an untrusted
modules pointer (null, or non-positive count) yields an empty module list,
otherwise each of the `module_count` foreign modules is converted in order. -/
def MemoryInfo.try_from (c : C_MemoryInfo) : Except HwinfoError MemoryInfo :=
  match
    (match c.modules with
     | none => Except.ok []
     | some mem =>
       if c.module_count ≤ 0 then Except.ok []
       else collectExcept RamModule.try_from ((List.range c.module_count.toNat).map mem)) with
  | .error e => .error e
  | .ok modules =>
    .ok { total_bytes := c.total_Bytes, free_bytes := c.free_Bytes,
          available_bytes := c.available_Bytes, modules := modules }

/-- Model of the bindgen-generated `C_MainBoard` struct.
Modelled from the spec: fields as read by `hwinfo.rs`. -/
structure C_MainBoard where
  vendor : Option (List Nat)
  name : Option (List Nat)
  version : Option (List Nat)
  serialNumber : Option (List Nat)

/-- Local owned `MainBoard` record of `hwinfo.rs`. -/
structure MainBoard where
  vendor : List Nat
  name : List Nat
  version : List Nat
  serial_number : List Nat
deriving DecidableEq

/-- Model of `impl TryFrom<&C_MainBoard> for MainBoard`. -/
def MainBoard.try_from (c : C_MainBoard) : Except HwinfoError MainBoard :=
  match c_char_to_string c.vendor with
  | .error e => .error e
  | .ok vendor =>
    match c_char_to_string c.name with
    | .error e => .error e
    | .ok name =>
      match c_char_to_string c.version with
      | .error e => .error e
      | .ok version =>
        match c_char_to_string c.serialNumber with
        | .error e => .error e
        | .ok serialNumber =>
          .ok { vendor := vendor, name := name, version := version,
                serial_number := serialNumber }

/-- Model of the bindgen-generated `C_Disk` struct.
Modelled from the spec: fields as read by `hwinfo.rs`. -/
structure C_Disk where
  id : Int
  vendor : Option (List Nat)
  model : Option (List Nat)
  serialNumber : Option (List Nat)
  size_Bytes : Int
  free_size_Bytes : Int
  volumes : C_StringArray

/-- Local owned `Disk` record of `hwinfo.rs`. -/
structure Disk where
  id : Int
  vendor : List Nat
  model : List Nat
  serial_number : List Nat
  size_bytes : Int
  free_size_bytes : Int
  volumes : List (List Nat)
deriving DecidableEq

/-- Model of `impl TryFrom<&C_Disk> for Disk`. -/
def Disk.try_from (c : C_Disk) : Except HwinfoError Disk :=
  match c_char_to_string c.vendor with
  | .error e => .error e
  | .ok vendor =>
    match c_char_to_string c.model with
    | .error e => .error e
    | .ok model =>
      match c_char_to_string c.serialNumber with
      | .error e => .error e
      | .ok serialNumber =>
        match c_string_array_to_vec c.volumes with
        | .error e => .error e
        | .ok volumes =>
          .ok { id := c.id, vendor := vendor, model := model,
                serial_number := serialNumber,
                size_bytes := c.size_Bytes,
                free_size_bytes := c.free_size_Bytes,
                volumes := volumes }

/-- Model of the bindgen-generated `C_Battery` struct.
Modelled from the spec: fields as read by `hwinfo.rs`. -/
structure C_Battery where
  id : Int
  vendor : Option (List Nat)
  model : Option (List Nat)
  serialNumber : Option (List Nat)
  technology : Option (List Nat)
  energyFull : Int
  energyNow : Int
  charging : Bool

/-- Local owned `Battery` record of `hwinfo.rs`. -/
structure Battery where
  id : Int
  vendor : List Nat
  model : List Nat
  serial_number : List Nat
  technology : List Nat
  energy_full_mwh : Int
  energy_now_mwh : Int
  is_charging : Bool
deriving DecidableEq

/-- Model of `impl TryFrom<&C_Battery> for Battery`. -/
def Battery.try_from (c : C_Battery) : Except HwinfoError Battery :=
  match c_char_to_string c.vendor with
  | .error e => .error e
  | .ok vendor =>
    match c_char_to_string c.model with
    | .error e => .error e
    | .ok model =>
      match c_char_to_string c.serialNumber with
      | .error e => .error e
      | .ok serialNumber =>
        match c_char_to_string c.technology with
        | .error e => .error e
        | .ok technology =>
          .ok { id := c.id, vendor := vendor, model := model,
                serial_number := serialNumber, technology := technology,
                energy_full_mwh := c.energyFull,
                energy_now_mwh := c.energyNow,
                is_charging := c.charging }

/-- Model of the bindgen-generated `C_Network` struct.
Modelled from the spec: fields as read by `hwinfo.rs`. -/
structure C_Network where
  interfaceIndex : Option (List Nat)
  description : Option (List Nat)
  mac : Option (List Nat)
  ip4 : Option (List Nat)
  ip6 : Option (List Nat)

/-- Local owned `Network` record of `hwinfo.rs`. -/
structure Network where
  interface_index : List Nat
  description : List Nat
  mac_address : List Nat
  ipv4_address : List Nat
  ipv6_address : List Nat
deriving DecidableEq

/-- Model of `impl TryFrom<&C_Network> for Network`. -/
def Network.try_from (c : C_Network) : Except HwinfoError Network :=
  match c_char_to_string c.interfaceIndex with
  | .error e => .error e
  | .ok interfaceIndex =>
    match c_char_to_string c.description with
    | .error e => .error e
    | .ok description =>
      match c_char_to_string c.mac with
      | .error e => .error e
      | .ok mac =>
        match c_char_to_string c.ip4 with
        | .error e => .error e
        | .ok ip4 =>
          match c_char_to_string c.ip6 with
          | .error e => .error e
          | .ok ip6 =>
            .ok { interface_index := interfaceIndex, description := description,
                  mac_address := mac, ipv4_address := ip4, ipv6_address := ip6 }

/-- Foreign calls a query operation can perform: a count entry point, a
get/get-all entry point (recording the pointer it returned, `none` for null),
and a free entry point (recording the pointer it was given). -/
inductive FEvent where
  | countCall
  | getCall (ret : Option Nat)
  | freeCall (p : Nat)
deriving DecidableEq

/-- Number of occurrences of a given foreign-call event in a trace. -/
def countEv (e : FEvent) : List FEvent → Nat
  | [] => 0
  | f :: tr => (if f = e then 1 else 0) + countEv e tr

theorem countEv_append (e : FEvent) (t1 t2 : List FEvent) :
    countEv e (t1 ++ t2) = countEv e t1 + countEv e t2 := by
  induction t1 with
  | nil => simp [countEv]
  | cons f t1 ih => simp [countEv, ih]; omega

/-- Environment for `cpus()`: the value `get_cpu_count` returns, and the
pointer `get_all_cpus` returns (null, or an allocation identity together with
the array contents it points at). -/
structure CpusEnv where
  get_cpu_count : Int
  get_all_cpus : Option (Nat × (Nat → C_CPU))

/-- Model of `cpus()` in `hwinfo.rs`, returning the result together with the
trace of foreign calls performed. -/
def cpus (env : CpusEnv) : Except HwinfoError (List Cpu) × List FEvent :=
  if env.get_cpu_count ≤ 0 then (.ok [], [.countCall])
  else
    match env.get_all_cpus with
    | none => (.error (.DataUnavailable "get_all_cpus"), [.countCall, .getCall none])
    | some (p, mem) =>
      (collectExcept Cpu.try_from ((List.range env.get_cpu_count.toNat).map mem),
       [.countCall, .getCall (some p), .freeCall p])

/-- Environment for `gpus()`. -/
structure GpusEnv where
  get_gpu_count : Int
  get_all_gpus : Option (Nat × (Nat → C_GPU))

/-- Model of `gpus()` in `hwinfo.rs`. -/
def gpus (env : GpusEnv) : Except HwinfoError (List Gpu) × List FEvent :=
  if env.get_gpu_count ≤ 0 then (.ok [], [.countCall])
  else
    match env.get_all_gpus with
    | none => (.error (.DataUnavailable "get_all_gpus"), [.countCall, .getCall none])
    | some (p, mem) =>
      (collectExcept Gpu.try_from ((List.range env.get_gpu_count.toNat).map mem),
       [.countCall, .getCall (some p), .freeCall p])

/-- Environment for `disks()`. -/
structure DisksEnv where
  get_disk_count : Int
  get_all_disks : Option (Nat × (Nat → C_Disk))

/-- Model of `disks()` in `hwinfo.rs`. -/
def disks (env : DisksEnv) : Except HwinfoError (List Disk) × List FEvent :=
  if env.get_disk_count ≤ 0 then (.ok [], [.countCall])
  else
    match env.get_all_disks with
    | none => (.error (.DataUnavailable "get_all_disks"), [.countCall, .getCall none])
    | some (p, mem) =>
      (collectExcept Disk.try_from ((List.range env.get_disk_count.toNat).map mem),
       [.countCall, .getCall (some p), .freeCall p])

/-- Environment for `batteries()`. -/
structure BatteriesEnv where
  get_battery_count : Int
  get_all_batteries : Option (Nat × (Nat → C_Battery))

/-- Model of `batteries()` in `hwinfo.rs`. -/
def batteries (env : BatteriesEnv) : Except HwinfoError (List Battery) × List FEvent :=
  if env.get_battery_count ≤ 0 then (.ok [], [.countCall])
  else
    match env.get_all_batteries with
    | none => (.error (.DataUnavailable "get_all_batteries"), [.countCall, .getCall none])
    | some (p, mem) =>
      (collectExcept Battery.try_from ((List.range env.get_battery_count.toNat).map mem),
       [.countCall, .getCall (some p), .freeCall p])

/-- Environment for `networks()`. -/
structure NetworksEnv where
  get_network_count : Int
  get_all_networks : Option (Nat × (Nat → C_Network))

/-- Model of `networks()` in `hwinfo.rs`. -/
def networks (env : NetworksEnv) : Except HwinfoError (List Network) × List FEvent :=
  if env.get_network_count ≤ 0 then (.ok [], [.countCall])
  else
    match env.get_all_networks with
    | none => (.error (.DataUnavailable "get_all_networks"), [.countCall, .getCall none])
    | some (p, mem) =>
      (collectExcept Network.try_from ((List.range env.get_network_count.toNat).map mem),
       [.countCall, .getCall (some p), .freeCall p])

/-- Environment for `os_info()`: the pointer `get_os_info` returns. -/
structure OsEnv where
  get_os_info : Option (Nat × C_OS)

/-- Model of `os_info()` in `hwinfo.rs`. -/
def os_info (env : OsEnv) : Except HwinfoError Os × List FEvent :=
  match env.get_os_info with
  | none => (.error (.DataUnavailable "get_os_info"), [.getCall none])
  | some (p, c) => (Os.try_from c, [.getCall (some p), .freeCall p])

/-- Environment for `memory_info()`. -/
structure MemoryEnv where
  get_memory_info : Option (Nat × C_MemoryInfo)

/-- Model of `memory_info()` in `hwinfo.rs`. -/
def memory_info (env : MemoryEnv) : Except HwinfoError MemoryInfo × List FEvent :=
  match env.get_memory_info with
  | none => (.error (.DataUnavailable "get_memory_info"), [.getCall none])
  | some (p, c) => (MemoryInfo.try_from c, [.getCall (some p), .freeCall p])

/-- Environment for `mainboard_info()`. -/
structure MainBoardEnv where
  get_mainboard_info : Option (Nat × C_MainBoard)

/-- Model of `mainboard_info()` in `hwinfo.rs`. -/
def mainboard_info (env : MainBoardEnv) : Except HwinfoError MainBoard × List FEvent :=
  match env.get_mainboard_info with
  | none => (.error (.DataUnavailable "get_mainboard_info"), [.getCall none])
  | some (p, c) => (MainBoard.try_from c, [.getCall (some p), .freeCall p])

/-- Environment for `cpu_utilization`: what the foreign
`get_cpu_utilization` entry point returns for each cpu id. -/
structure CpuUtilizationEnv where
  get_cpu_utilization : Int → Rat

/-- Model of `cpu_utilization` in `hwinfo.rs`: a plain value, no error path. -/
def cpu_utilization (env : CpuUtilizationEnv) (cpu_id : Int) : Rat :=
  env.get_cpu_utilization cpu_id

/-- Model of the bindgen-generated counted double-array value type
(`values` pointer plus signed `count`).
Modelled from the spec: an auxiliary counted-array value type returned by the
per-CPU thread-detail entry points. -/
structure C_DoubleArray where
  values : Option (Nat → Rat)
  count : Int

/-- Model of the bindgen-generated counted 64-bit-integer-array value type.
Modelled from the spec: the second auxiliary counted-array value type. -/
structure C_Int64Array where
  values : Option (Nat → Int)
  count : Int

/-- Environment for `cpu_thread_utilizations`: for each cpu id, the pointer
the foreign `get_cpu_thread_utilizations` entry point returns (null, or an
allocation identity paired with the descriptor it points at). -/
structure ThreadUtilizationsEnv where
  get_cpu_thread_utilizations : Int → Option (Nat × C_DoubleArray)

/-- Model of `cpu_thread_utilizations` in `hwinfo.rs`. -/
def cpu_thread_utilizations (env : ThreadUtilizationsEnv) (cpu_id : Int) :
    Except HwinfoError (List Rat) × List FEvent :=
  match env.get_cpu_thread_utilizations cpu_id with
  | none =>
    (.error (.DataUnavailable ("get_cpu_thread_utilizations for cpu_id " ++ toString cpu_id)),
     [.getCall none])
  | some (p, arr) =>
    (.ok (match arr.values with
          | none => []
          | some mem => if arr.count ≤ 0 then [] else (List.range arr.count.toNat).map mem),
     [.getCall (some p), .freeCall p])

/-- Environment for `cpu_thread_speeds_mhz`. -/
structure ThreadSpeedsEnv where
  get_cpu_thread_speeds_mhz : Int → Option (Nat × C_Int64Array)

/-- Model of `cpu_thread_speeds_mhz` in `hwinfo.rs`. -/
def cpu_thread_speeds_mhz (env : ThreadSpeedsEnv) (cpu_id : Int) :
    Except HwinfoError (List Int) × List FEvent :=
  match env.get_cpu_thread_speeds_mhz cpu_id with
  | none =>
    (.error (.DataUnavailable ("get_cpu_thread_speeds_mhz for cpu_id " ++ toString cpu_id)),
     [.getCall none])
  | some (p, arr) =>
    (.ok (match arr.values with
          | none => []
          | some mem => if arr.count ≤ 0 then [] else (List.range arr.count.toNat).map mem),
     [.getCall (some p), .freeCall p])

instance {ε α : Type} [DecidableEq ε] [DecidableEq α] : DecidableEq (Except ε α) := fun x y =>
  match x, y with
  | .ok a, .ok b =>
    if h : a = b then .isTrue (by rw [h]) else .isFalse (fun hc => h (Except.ok.inj hc))
  | .ok _, .error _ => .isFalse (fun hc => Except.noConfusion hc)
  | .error _, .ok _ => .isFalse (fun hc => Except.noConfusion hc)
  | .error e, .error f =>
    if h : e = f then .isTrue (by rw [h]) else .isFalse (fun hc => h (Except.error.inj hc))

/-- Claim C5: `c_char_to_string` returns empty owned text (a success) for a
null pointer; for a non-null pointer it returns the decoded text when the
bytes are valid UTF-8, and fails with the invalid-encoding error wrapping the
underlying validation failure otherwise. -/
theorem c_char_to_string_spec :
    c_char_to_string none = .ok []
    ∧ (∀ (bs s : List Nat), utf8Decode bs = .ok s → c_char_to_string (some bs) = .ok s)
    ∧ (∀ (bs : List Nat) (u : Utf8Error), utf8Decode bs = .error u →
        c_char_to_string (some bs) = .error (HwinfoError.InvalidString u)) := by
  refine ⟨rfl, ?_, ?_⟩
  · intro bs s h
    simp [c_char_to_string, h]
  · intro bs u h
    simp [c_char_to_string, h]

theorem c_char_to_string_spec_witness :
    utf8Decode [72, 105] = .ok [72, 105]
    ∧ c_char_to_string (some [72, 105]) = .ok [72, 105]
    ∧ utf8Decode [255] = .error ⟨0⟩
    ∧ c_char_to_string (some [255]) = .error (HwinfoError.InvalidString ⟨0⟩) :=
  ⟨by decide, c_char_to_string_spec.2.1 [72, 105] [72, 105] (by decide),
   by decide, c_char_to_string_spec.2.2 [255] ⟨0⟩ (by decide)⟩

/-- Claim C6: `c_string_array_to_vec` returns an empty sequence (success) when
the descriptor pointer is null or its signed count is non-positive; otherwise
it decodes exactly `count` contiguous foreign text pointers in index order,
succeeding with the full sequence exactly when every element decodes, and
failing with the first failing element's error otherwise. -/
theorem c_string_array_to_vec_spec :
    (∀ arr : C_StringArray, arr.strings = none → c_string_array_to_vec arr = .ok [])
    ∧ (∀ arr : C_StringArray, arr.count ≤ 0 → c_string_array_to_vec arr = .ok [])
    ∧ (∀ (arr : C_StringArray) (mem : Nat → Option (List Nat)) (r : List (List Nat)),
        arr.strings = some mem → 0 < arr.count →
        (c_string_array_to_vec arr = .ok r ↔
          List.Forall₂ (fun ptr s => c_char_to_string ptr = .ok s)
            ((List.range arr.count.toNat).map mem) r))
    ∧ (∀ (arr : C_StringArray) (mem : Nat → Option (List Nat)) (e : HwinfoError),
        arr.strings = some mem → 0 < arr.count →
        (c_string_array_to_vec arr = .error e ↔
          ∃ j, j < arr.count.toNat ∧ c_char_to_string (mem j) = .error e ∧
            ∀ i, i < j → ∃ s, c_char_to_string (mem i) = .ok s)) := by
  refine ⟨?_, ?_, ?_, ?_⟩
  · intro arr h
    simp [c_string_array_to_vec, h]
  · intro arr h
    cases hs : arr.strings with
    | none => simp [c_string_array_to_vec, hs]
    | some mem => simp [c_string_array_to_vec, hs, h]
  · intro arr mem r hs hc
    simp only [c_string_array_to_vec, hs]
    rw [if_neg (by omega)]
    exact collectExcept_ok_iff _ _ _
  · intro arr mem e hs hc
    simp only [c_string_array_to_vec, hs]
    rw [if_neg (by omega)]
    exact collectExcept_range_error_iff _ _ _ _

theorem c_string_array_to_vec_spec_witness :
    c_string_array_to_vec ⟨none, 5⟩ = .ok []
    ∧ c_string_array_to_vec ⟨some (fun _ => some [65]), 0⟩ = .ok []
    ∧ c_string_array_to_vec ⟨some (fun _ => some [65]), 2⟩ = .ok [[65], [65]] := by
  refine ⟨c_string_array_to_vec_spec.1 ⟨none, 5⟩ rfl,
    c_string_array_to_vec_spec.2.1 ⟨some (fun _ => some [65]), 0⟩ (by decide), ?_⟩
  refine (c_string_array_to_vec_spec.2.2.1 ⟨some (fun _ => some [65]), 2⟩
    (fun _ => some [65]) [[65], [65]] rfl (by decide)).mpr ?_
  have h : (List.range (Int.toNat 2)).map (fun _ => some [65]) = [some [65], some [65]] := rfl
  rw [h]
  exact List.Forall₂.cons rfl (List.Forall₂.cons rfl List.Forall₂.nil)

/-- Claim C3: every list-valued query operation (cpus, gpus, disks,
batteries, networks) returns an empty sequence successfully when the foreign
count entry point returns a non-positive value, and its foreign-call trace is
exactly the count call: no get-all call and no free call are made. -/
theorem list_queries_empty_on_nonpositive_count :
    (∀ env : CpusEnv, env.get_cpu_count ≤ 0 →
      cpus env = (.ok [], [FEvent.countCall]))
    ∧ (∀ env : GpusEnv, env.get_gpu_count ≤ 0 →
      gpus env = (.ok [], [FEvent.countCall]))
    ∧ (∀ env : DisksEnv, env.get_disk_count ≤ 0 →
      disks env = (.ok [], [FEvent.countCall]))
    ∧ (∀ env : BatteriesEnv, env.get_battery_count ≤ 0 →
      batteries env = (.ok [], [FEvent.countCall]))
    ∧ (∀ env : NetworksEnv, env.get_network_count ≤ 0 →
      networks env = (.ok [], [FEvent.countCall])) := by
  refine ⟨?_, ?_, ?_, ?_, ?_⟩ <;> intro env h
  · simp [cpus, h]
  · simp [gpus, h]
  · simp [disks, h]
  · simp [batteries, h]
  · simp [networks, h]

theorem list_queries_empty_on_nonpositive_count_witness :
    cpus ⟨0, none⟩ = (.ok [], [FEvent.countCall])
    ∧ networks ⟨-3, none⟩ = (.ok [], [FEvent.countCall]) :=
  ⟨list_queries_empty_on_nonpositive_count.1 ⟨0, none⟩ (by decide),
   list_queries_empty_on_nonpositive_count.2.2.2.2 ⟨-3, none⟩ (by decide)⟩

/-- Claim C4: every list-valued query operation fails with `DataUnavailable`
carrying the operation name when the foreign count entry point returns a
positive value but the get-all entry point returns a null pointer, and its
trace contains no free call. -/
theorem list_queries_unavailable_on_null :
    (∀ env : CpusEnv, 0 < env.get_cpu_count → env.get_all_cpus = none →
      cpus env = (.error (.DataUnavailable "get_all_cpus"),
        [FEvent.countCall, FEvent.getCall none]))
    ∧ (∀ env : GpusEnv, 0 < env.get_gpu_count → env.get_all_gpus = none →
      gpus env = (.error (.DataUnavailable "get_all_gpus"),
        [FEvent.countCall, FEvent.getCall none]))
    ∧ (∀ env : DisksEnv, 0 < env.get_disk_count → env.get_all_disks = none →
      disks env = (.error (.DataUnavailable "get_all_disks"),
        [FEvent.countCall, FEvent.getCall none]))
    ∧ (∀ env : BatteriesEnv, 0 < env.get_battery_count → env.get_all_batteries = none →
      batteries env = (.error (.DataUnavailable "get_all_batteries"),
        [FEvent.countCall, FEvent.getCall none]))
    ∧ (∀ env : NetworksEnv, 0 < env.get_network_count → env.get_all_networks = none →
      networks env = (.error (.DataUnavailable "get_all_networks"),
        [FEvent.countCall, FEvent.getCall none])) := by
  refine ⟨?_, ?_, ?_, ?_, ?_⟩ <;> intro env h1 h2
  · simp only [cpus]; rw [if_neg (by omega), h2]
  · simp only [gpus]; rw [if_neg (by omega), h2]
  · simp only [disks]; rw [if_neg (by omega), h2]
  · simp only [batteries]; rw [if_neg (by omega), h2]
  · simp only [networks]; rw [if_neg (by omega), h2]

theorem list_queries_unavailable_on_null_witness :
    cpus ⟨2, none⟩ = (.error (.DataUnavailable "get_all_cpus"),
      [FEvent.countCall, FEvent.getCall none])
    ∧ gpus ⟨1, none⟩ = (.error (.DataUnavailable "get_all_gpus"),
      [FEvent.countCall, FEvent.getCall none]) :=
  ⟨list_queries_unavailable_on_null.1 ⟨2, none⟩ (by decide) rfl,
   list_queries_unavailable_on_null.2.1 ⟨1, none⟩ (by decide) rfl⟩

/-- Claim C9: when the foreign `get_cpu_thread_speeds_mhz` entry point
returns null for cpu id 5, the operation fails with exactly
`DataUnavailable "get_cpu_thread_speeds_mhz for cpu_id 5"` — the operation
name followed by the cpu identifier — and issues no free call. -/
theorem cpu_thread_speeds_mhz_null_at_5 :
    ∀ env : ThreadSpeedsEnv, env.get_cpu_thread_speeds_mhz 5 = none →
      cpu_thread_speeds_mhz env 5 =
        (.error (.DataUnavailable "get_cpu_thread_speeds_mhz for cpu_id 5"),
         [FEvent.getCall none]) := by
  intro env h
  simp only [cpu_thread_speeds_mhz, h]
  rfl

theorem cpu_thread_speeds_mhz_null_at_5_witness :
    cpu_thread_speeds_mhz ⟨fun _ => none⟩ 5 =
      (.error (.DataUnavailable "get_cpu_thread_speeds_mhz for cpu_id 5"),
       [FEvent.getCall none]) :=
  cpu_thread_speeds_mhz_null_at_5 ⟨fun _ => none⟩ rfl

/-- Claim C10: for `cpu_thread_utilizations` and `cpu_thread_speeds_mhz`,
when the foreign entry point returns a non-null descriptor whose inner values
pointer is null or whose count is non-positive, the operation succeeds with an
empty sequence, and the descriptor's free entry point is still called exactly
once before returning. -/
theorem thread_queries_empty_on_untrusted_descriptor :
    (∀ (env : ThreadUtilizationsEnv) (id : Int) (p : Nat) (arr : C_DoubleArray),
      env.get_cpu_thread_utilizations id = some (p, arr) →
      arr.values = none ∨ arr.count ≤ 0 →
      cpu_thread_utilizations env id = (.ok [], [FEvent.getCall (some p), FEvent.freeCall p]))
    ∧ (∀ (env : ThreadSpeedsEnv) (id : Int) (p : Nat) (arr : C_Int64Array),
      env.get_cpu_thread_speeds_mhz id = some (p, arr) →
      arr.values = none ∨ arr.count ≤ 0 →
      cpu_thread_speeds_mhz env id = (.ok [], [FEvent.getCall (some p), FEvent.freeCall p])) := by
  constructor
  · intro env id p arr h hcase
    simp only [cpu_thread_utilizations, h]
    rcases hcase with hv | hc
    · rw [hv]
    · cases hval : arr.values with
      | none => rfl
      | some mem => simp [hc]
  · intro env id p arr h hcase
    simp only [cpu_thread_speeds_mhz, h]
    rcases hcase with hv | hc
    · rw [hv]
    · cases hval : arr.values with
      | none => rfl
      | some mem => simp [hc]

theorem thread_queries_empty_on_untrusted_descriptor_witness :
    cpu_thread_utilizations ⟨fun _ => some (4, ⟨none, 8⟩)⟩ 0 =
      (.ok [], [FEvent.getCall (some 4), FEvent.freeCall 4])
    ∧ cpu_thread_speeds_mhz ⟨fun _ => some (9, ⟨some (fun _ => 1000), -1⟩)⟩ 2 =
      (.ok [], [FEvent.getCall (some 9), FEvent.freeCall 9]) :=
  ⟨thread_queries_empty_on_untrusted_descriptor.1 ⟨fun _ => some (4, ⟨none, 8⟩)⟩ 0 4 ⟨none, 8⟩
      rfl (Or.inl rfl),
   thread_queries_empty_on_untrusted_descriptor.2 ⟨fun _ => some (9, ⟨some (fun _ => 1000), -1⟩)⟩ 2
      9 ⟨some (fun _ => 1000), -1⟩ rfl (Or.inr (by decide))⟩

/-- Claim C8: `cpu_utilization` has no error path — it returns a plain value,
the verbatim result of the foreign `get_cpu_utilization` entry point — so
under the foreign library's convention that this entry point yields a
fraction in the interval 0 to 1 (0 when it cannot measure), the returned
value lies in that interval, and it is 0 whenever the foreign side reports 0. -/
theorem cpu_utilization_spec :
    (∀ (env : CpuUtilizationEnv) (id : Int),
      (∀ i : Int, 0 ≤ env.get_cpu_utilization i ∧ env.get_cpu_utilization i ≤ 1) →
      0 ≤ cpu_utilization env id ∧ cpu_utilization env id ≤ 1)
    ∧ (∀ (env : CpuUtilizationEnv) (id : Int),
      env.get_cpu_utilization id = 0 → cpu_utilization env id = 0) := by
  constructor
  · intro env id h
    exact h id
  · intro env id h
    exact h

theorem cpu_utilization_spec_witness :
    0 ≤ cpu_utilization ⟨fun _ => 1⟩ 3 ∧ cpu_utilization ⟨fun _ => 1⟩ 3 ≤ 1 :=
  cpu_utilization_spec.1 ⟨fun _ => 1⟩ 3 (fun _ => ⟨zero_le_one, le_refl 1⟩)

/-- A trace is balanced when no pointer is freed more often than the get/get-all
entry point returned it: the no-double-free / no-foreign-free-without-acquire
discipline. -/
def BalancedTrace (tr : List FEvent) : Prop :=
  ∀ p : Nat, countEv (.freeCall p) tr ≤ countEv (.getCall (some p)) tr

theorem balancedTrace_append {t1 t2 : List FEvent}
    (h1 : BalancedTrace t1) (h2 : BalancedTrace t2) : BalancedTrace (t1 ++ t2) := by
  intro p
  rw [countEv_append, countEv_append]
  exact Nat.add_le_add (h1 p) (h2 p)

theorem balancedTrace_countOnly : BalancedTrace [FEvent.countCall] := by
  intro p
  simp [countEv]

theorem balancedTrace_countGetNone : BalancedTrace [FEvent.countCall, FEvent.getCall none] := by
  intro p
  simp [countEv]

theorem balancedTrace_countGetFree (q : Nat) :
    BalancedTrace [FEvent.countCall, FEvent.getCall (some q), FEvent.freeCall q] := by
  intro p
  by_cases h : q = p <;> simp [countEv, h]

theorem balancedTrace_getNone : BalancedTrace [FEvent.getCall none] := by
  intro p
  simp [countEv]

theorem balancedTrace_getFree (q : Nat) :
    BalancedTrace [FEvent.getCall (some q), FEvent.freeCall q] := by
  intro p
  by_cases h : q = p <;> simp [countEv, h]

theorem cpus_balanced (env : CpusEnv) : BalancedTrace (cpus env).2 := by
  unfold cpus
  by_cases h : env.get_cpu_count ≤ 0
  · rw [if_pos h]
    exact balancedTrace_countOnly
  · rw [if_neg h]
    cases halloc : env.get_all_cpus with
    | none => exact balancedTrace_countGetNone
    | some pm =>
      obtain ⟨p, mem⟩ := pm
      exact balancedTrace_countGetFree p

theorem gpus_balanced (env : GpusEnv) : BalancedTrace (gpus env).2 := by
  unfold gpus
  by_cases h : env.get_gpu_count ≤ 0
  · rw [if_pos h]
    exact balancedTrace_countOnly
  · rw [if_neg h]
    cases halloc : env.get_all_gpus with
    | none => exact balancedTrace_countGetNone
    | some pm =>
      obtain ⟨p, mem⟩ := pm
      exact balancedTrace_countGetFree p

theorem disks_balanced (env : DisksEnv) : BalancedTrace (disks env).2 := by
  unfold disks
  by_cases h : env.get_disk_count ≤ 0
  · rw [if_pos h]
    exact balancedTrace_countOnly
  · rw [if_neg h]
    cases halloc : env.get_all_disks with
    | none => exact balancedTrace_countGetNone
    | some pm =>
      obtain ⟨p, mem⟩ := pm
      exact balancedTrace_countGetFree p

theorem batteries_balanced (env : BatteriesEnv) : BalancedTrace (batteries env).2 := by
  unfold batteries
  by_cases h : env.get_battery_count ≤ 0
  · rw [if_pos h]
    exact balancedTrace_countOnly
  · rw [if_neg h]
    cases halloc : env.get_all_batteries with
    | none => exact balancedTrace_countGetNone
    | some pm =>
      obtain ⟨p, mem⟩ := pm
      exact balancedTrace_countGetFree p

theorem networks_balanced (env : NetworksEnv) : BalancedTrace (networks env).2 := by
  unfold networks
  by_cases h : env.get_network_count ≤ 0
  · rw [if_pos h]
    exact balancedTrace_countOnly
  · rw [if_neg h]
    cases halloc : env.get_all_networks with
    | none => exact balancedTrace_countGetNone
    | some pm =>
      obtain ⟨p, mem⟩ := pm
      exact balancedTrace_countGetFree p

theorem os_info_balanced (env : OsEnv) : BalancedTrace (os_info env).2 := by
  unfold os_info
  cases h : env.get_os_info with
  | none => exact balancedTrace_getNone
  | some pc =>
    obtain ⟨p, c⟩ := pc
    exact balancedTrace_getFree p

theorem memory_info_balanced (env : MemoryEnv) : BalancedTrace (memory_info env).2 := by
  unfold memory_info
  cases h : env.get_memory_info with
  | none => exact balancedTrace_getNone
  | some pc =>
    obtain ⟨p, c⟩ := pc
    exact balancedTrace_getFree p

theorem mainboard_info_balanced (env : MainBoardEnv) : BalancedTrace (mainboard_info env).2 := by
  unfold mainboard_info
  cases h : env.get_mainboard_info with
  | none => exact balancedTrace_getNone
  | some pc =>
    obtain ⟨p, c⟩ := pc
    exact balancedTrace_getFree p

theorem cpu_thread_utilizations_balanced (env : ThreadUtilizationsEnv) (id : Int) :
    BalancedTrace (cpu_thread_utilizations env id).2 := by
  unfold cpu_thread_utilizations
  cases h : env.get_cpu_thread_utilizations id with
  | none => exact balancedTrace_getNone
  | some pa =>
    obtain ⟨p, arr⟩ := pa
    exact balancedTrace_getFree p

theorem cpu_thread_speeds_mhz_balanced (env : ThreadSpeedsEnv) (id : Int) :
    BalancedTrace (cpu_thread_speeds_mhz env id).2 := by
  unfold cpu_thread_speeds_mhz
  cases h : env.get_cpu_thread_speeds_mhz id with
  | none => exact balancedTrace_getNone
  | some pa =>
    obtain ⟨p, arr⟩ := pa
    exact balancedTrace_getFree p

/-- Claim C1: for every query operation, whenever the foreign get/get-all
entry point returns a non-null pointer, the trace the operation performs is
exactly the acquisition followed by one free of that same pointer before
returning, regardless of how conversion went (the result component is
unconstrained, so every exit path is covered); and for two sequential calls
of the same operation, the combined trace never frees any pointer more often
than that pointer was returned by a get/get-all call, so no allocation is
ever freed twice. -/
theorem queries_free_exactly_once :
    (∀ (env : CpusEnv) (p : Nat) (mem : Nat → C_CPU),
      0 < env.get_cpu_count → env.get_all_cpus = some (p, mem) →
      (cpus env).2 = [FEvent.countCall, FEvent.getCall (some p), FEvent.freeCall p])
    ∧ (∀ (env : GpusEnv) (p : Nat) (mem : Nat → C_GPU),
      0 < env.get_gpu_count → env.get_all_gpus = some (p, mem) →
      (gpus env).2 = [FEvent.countCall, FEvent.getCall (some p), FEvent.freeCall p])
    ∧ (∀ (env : DisksEnv) (p : Nat) (mem : Nat → C_Disk),
      0 < env.get_disk_count → env.get_all_disks = some (p, mem) →
      (disks env).2 = [FEvent.countCall, FEvent.getCall (some p), FEvent.freeCall p])
    ∧ (∀ (env : BatteriesEnv) (p : Nat) (mem : Nat → C_Battery),
      0 < env.get_battery_count → env.get_all_batteries = some (p, mem) →
      (batteries env).2 = [FEvent.countCall, FEvent.getCall (some p), FEvent.freeCall p])
    ∧ (∀ (env : NetworksEnv) (p : Nat) (mem : Nat → C_Network),
      0 < env.get_network_count → env.get_all_networks = some (p, mem) →
      (networks env).2 = [FEvent.countCall, FEvent.getCall (some p), FEvent.freeCall p])
    ∧ (∀ (env : OsEnv) (p : Nat) (c : C_OS),
      env.get_os_info = some (p, c) →
      (os_info env).2 = [FEvent.getCall (some p), FEvent.freeCall p])
    ∧ (∀ (env : MemoryEnv) (p : Nat) (c : C_MemoryInfo),
      env.get_memory_info = some (p, c) →
      (memory_info env).2 = [FEvent.getCall (some p), FEvent.freeCall p])
    ∧ (∀ (env : MainBoardEnv) (p : Nat) (c : C_MainBoard),
      env.get_mainboard_info = some (p, c) →
      (mainboard_info env).2 = [FEvent.getCall (some p), FEvent.freeCall p])
    ∧ (∀ (env : ThreadUtilizationsEnv) (id : Int) (p : Nat) (arr : C_DoubleArray),
      env.get_cpu_thread_utilizations id = some (p, arr) →
      (cpu_thread_utilizations env id).2 = [FEvent.getCall (some p), FEvent.freeCall p])
    ∧ (∀ (env : ThreadSpeedsEnv) (id : Int) (p : Nat) (arr : C_Int64Array),
      env.get_cpu_thread_speeds_mhz id = some (p, arr) →
      (cpu_thread_speeds_mhz env id).2 = [FEvent.getCall (some p), FEvent.freeCall p])
    ∧ (∀ e1 e2 : CpusEnv, BalancedTrace ((cpus e1).2 ++ (cpus e2).2))
    ∧ (∀ e1 e2 : GpusEnv, BalancedTrace ((gpus e1).2 ++ (gpus e2).2))
    ∧ (∀ e1 e2 : DisksEnv, BalancedTrace ((disks e1).2 ++ (disks e2).2))
    ∧ (∀ e1 e2 : BatteriesEnv, BalancedTrace ((batteries e1).2 ++ (batteries e2).2))
    ∧ (∀ e1 e2 : NetworksEnv, BalancedTrace ((networks e1).2 ++ (networks e2).2))
    ∧ (∀ e1 e2 : OsEnv, BalancedTrace ((os_info e1).2 ++ (os_info e2).2))
    ∧ (∀ e1 e2 : MemoryEnv, BalancedTrace ((memory_info e1).2 ++ (memory_info e2).2))
    ∧ (∀ e1 e2 : MainBoardEnv, BalancedTrace ((mainboard_info e1).2 ++ (mainboard_info e2).2))
    ∧ (∀ (e1 e2 : ThreadUtilizationsEnv) (id1 id2 : Int),
      BalancedTrace ((cpu_thread_utilizations e1 id1).2 ++ (cpu_thread_utilizations e2 id2).2))
    ∧ (∀ (e1 e2 : ThreadSpeedsEnv) (id1 id2 : Int),
      BalancedTrace ((cpu_thread_speeds_mhz e1 id1).2 ++ (cpu_thread_speeds_mhz e2 id2).2)) := by
  refine ⟨?_, ?_, ?_, ?_, ?_, ?_, ?_, ?_, ?_, ?_, ?_, ?_, ?_, ?_, ?_, ?_, ?_, ?_, ?_, ?_⟩
  · intro env p mem h1 h2
    simp only [cpus]
    rw [if_neg (by omega), h2]
  · intro env p mem h1 h2
    simp only [gpus]
    rw [if_neg (by omega), h2]
  · intro env p mem h1 h2
    simp only [disks]
    rw [if_neg (by omega), h2]
  · intro env p mem h1 h2
    simp only [batteries]
    rw [if_neg (by omega), h2]
  · intro env p mem h1 h2
    simp only [networks]
    rw [if_neg (by omega), h2]
  · intro env p c h
    simp only [os_info, h]
  · intro env p c h
    simp only [memory_info, h]
  · intro env p c h
    simp only [mainboard_info, h]
  · intro env id p arr h
    simp only [cpu_thread_utilizations, h]
  · intro env id p arr h
    simp only [cpu_thread_speeds_mhz, h]
  · exact fun e1 e2 => balancedTrace_append (cpus_balanced e1) (cpus_balanced e2)
  · exact fun e1 e2 => balancedTrace_append (gpus_balanced e1) (gpus_balanced e2)
  · exact fun e1 e2 => balancedTrace_append (disks_balanced e1) (disks_balanced e2)
  · exact fun e1 e2 => balancedTrace_append (batteries_balanced e1) (batteries_balanced e2)
  · exact fun e1 e2 => balancedTrace_append (networks_balanced e1) (networks_balanced e2)
  · exact fun e1 e2 => balancedTrace_append (os_info_balanced e1) (os_info_balanced e2)
  · exact fun e1 e2 => balancedTrace_append (memory_info_balanced e1) (memory_info_balanced e2)
  · exact fun e1 e2 =>
      balancedTrace_append (mainboard_info_balanced e1) (mainboard_info_balanced e2)
  · exact fun e1 e2 id1 id2 =>
      balancedTrace_append (cpu_thread_utilizations_balanced e1 id1)
        (cpu_thread_utilizations_balanced e2 id2)
  · exact fun e1 e2 id1 id2 =>
      balancedTrace_append (cpu_thread_speeds_mhz_balanced e1 id1)
        (cpu_thread_speeds_mhz_balanced e2 id2)

theorem queries_free_exactly_once_witness :
    (cpus ⟨1, some (5, fun _ => ⟨0, none, none, 0, 0, 0, 0, 0, 0, 0, ⟨none, 0⟩⟩)⟩).2 =
      [FEvent.countCall, FEvent.getCall (some 5), FEvent.freeCall 5]
    ∧ (os_info ⟨some (3, ⟨none, none, none, false, true, true⟩)⟩).2 =
      [FEvent.getCall (some 3), FEvent.freeCall 3] :=
  ⟨queries_free_exactly_once.1 ⟨1, some (5, fun _ => ⟨0, none, none, 0, 0, 0, 0, 0, 0, 0, ⟨none, 0⟩⟩)⟩
      5 (fun _ => ⟨0, none, none, 0, 0, 0, 0, 0, 0, 0, ⟨none, 0⟩⟩) (by decide) rfl,
   queries_free_exactly_once.2.2.2.2.2.1 ⟨some (3, ⟨none, none, none, false, true, true⟩)⟩
      3 ⟨none, none, none, false, true, true⟩ rfl⟩

theorem c_char_to_string_error_invalid (o : Option (List Nat)) (e : HwinfoError) :
    c_char_to_string o = .error e → ∃ u, e = HwinfoError.InvalidString u := by
  cases o with
  | none => intro h; cases h
  | some bs =>
    cases h : utf8Decode bs with
    | ok s => intro hc; simp [c_char_to_string, h] at hc
    | error u =>
      intro hc
      simp only [c_char_to_string, h] at hc
      exact ⟨u, (Except.error.inj hc).symm⟩

theorem c_string_array_to_vec_error_invalid (arr : C_StringArray) (e : HwinfoError) :
    c_string_array_to_vec arr = .error e → ∃ u, e = HwinfoError.InvalidString u := by
  intro h
  cases hs : arr.strings with
  | none =>
    simp only [c_string_array_to_vec, hs] at h
    cases h
  | some mem =>
    simp only [c_string_array_to_vec, hs] at h
    by_cases hc : arr.count ≤ 0
    · rw [if_pos hc] at h
      cases h
    · rw [if_neg hc] at h
      obtain ⟨l1, a, l2, -, -, ha⟩ := (collectExcept_error_iff c_char_to_string _ e).mp h
      exact c_char_to_string_error_invalid a e ha

theorem cpu_try_from_error_iff (c : C_CPU) (e : HwinfoError) :
    Cpu.try_from c = .error e ↔
      (c_char_to_string c.vendor = .error e
       ∨ ((∃ s, c_char_to_string c.vendor = .ok s) ∧ c_char_to_string c.modelName = .error e)
       ∨ ((∃ s, c_char_to_string c.vendor = .ok s) ∧ (∃ s, c_char_to_string c.modelName = .ok s)
          ∧ c_string_array_to_vec c.flags = .error e)) := by
  unfold Cpu.try_from
  cases h1 : c_char_to_string c.vendor with
  | error e1 => simp [h1]
  | ok s1 =>
    cases h2 : c_char_to_string c.modelName with
    | error e2 => simp [h2]
    | ok s2 =>
      cases h3 : c_string_array_to_vec c.flags with
      | error e3 => simp [h3]
      | ok fl => simp [h3]

/-- Error component of a fallible decode result, if any. -/
def errOf {α : Type} : Except HwinfoError α → Option HwinfoError
  | .error e => some e
  | .ok _ => none

/-- First error in a list of optional decode errors, in order. -/
def firstErr : List (Option HwinfoError) → Option HwinfoError
  | [] => none
  | o :: l =>
    match o with
    | some e => some e
    | none => firstErr l

theorem errOf_eq_some {α : Type} (x : Except HwinfoError α) (e : HwinfoError) :
    errOf x = some e ↔ x = .error e := by
  cases x <;> simp [errOf]

theorem firstErr_mem : ∀ (l : List (Option HwinfoError)) (e : HwinfoError),
    firstErr l = some e → some e ∈ l := by
  intro l
  induction l with
  | nil => intro e h; cases h
  | cons o l ih =>
    intro e h
    cases o with
    | some e0 =>
      simp only [firstErr] at h
      exact List.mem_cons.mpr (Or.inl h.symm)
    | none =>
      simp only [firstErr] at h
      exact List.mem_cons_of_mem _ (ih e h)

theorem os_try_from_error_iff (c : C_OS) (e : HwinfoError) :
    Os.try_from c = .error e ↔
      firstErr [errOf (c_char_to_string c.name), errOf (c_char_to_string c.version),
        errOf (c_char_to_string c.kernel)] = some e := by
  unfold Os.try_from
  cases h1 : c_char_to_string c.name with
  | error e1 => simp [errOf, firstErr]
  | ok s1 =>
    cases h2 : c_char_to_string c.version with
    | error e2 => simp [errOf, firstErr]
    | ok s2 =>
      cases h3 : c_char_to_string c.kernel with
      | error e3 => simp [errOf, firstErr]
      | ok s3 => simp [errOf, firstErr]

theorem gpu_try_from_error_iff (c : C_GPU) (e : HwinfoError) :
    Gpu.try_from c = .error e ↔
      firstErr [errOf (c_char_to_string c.vendor), errOf (c_char_to_string c.name),
        errOf (c_char_to_string c.driverVersion), errOf (c_char_to_string c.vendor_id),
        errOf (c_char_to_string c.device_id)] = some e := by
  unfold Gpu.try_from
  cases h1 : c_char_to_string c.vendor with
  | error e1 => simp [errOf, firstErr]
  | ok s1 =>
    cases h2 : c_char_to_string c.name with
    | error e2 => simp [errOf, firstErr]
    | ok s2 =>
      cases h3 : c_char_to_string c.driverVersion with
      | error e3 => simp [errOf, firstErr]
      | ok s3 =>
        cases h4 : c_char_to_string c.vendor_id with
        | error e4 => simp [errOf, firstErr]
        | ok s4 =>
          cases h5 : c_char_to_string c.device_id with
          | error e5 => simp [errOf, firstErr]
          | ok s5 => simp [errOf, firstErr]

theorem ram_try_from_error_iff (m : C_RAM_Module) (e : HwinfoError) :
    RamModule.try_from m = .error e ↔
      firstErr [errOf (c_char_to_string m.vendor), errOf (c_char_to_string m.name),
        errOf (c_char_to_string m.model), errOf (c_char_to_string m.serial_number)] = some e := by
  unfold RamModule.try_from
  cases h1 : c_char_to_string m.vendor with
  | error e1 => simp [errOf, firstErr]
  | ok s1 =>
    cases h2 : c_char_to_string m.name with
    | error e2 => simp [errOf, firstErr]
    | ok s2 =>
      cases h3 : c_char_to_string m.model with
      | error e3 => simp [errOf, firstErr]
      | ok s3 =>
        cases h4 : c_char_to_string m.serial_number with
        | error e4 => simp [errOf, firstErr]
        | ok s4 => simp [errOf, firstErr]

theorem mainboard_try_from_error_iff (c : C_MainBoard) (e : HwinfoError) :
    MainBoard.try_from c = .error e ↔
      firstErr [errOf (c_char_to_string c.vendor), errOf (c_char_to_string c.name),
        errOf (c_char_to_string c.version), errOf (c_char_to_string c.serialNumber)] = some e := by
  unfold MainBoard.try_from
  cases h1 : c_char_to_string c.vendor with
  | error e1 => simp [errOf, firstErr]
  | ok s1 =>
    cases h2 : c_char_to_string c.name with
    | error e2 => simp [errOf, firstErr]
    | ok s2 =>
      cases h3 : c_char_to_string c.version with
      | error e3 => simp [errOf, firstErr]
      | ok s3 =>
        cases h4 : c_char_to_string c.serialNumber with
        | error e4 => simp [errOf, firstErr]
        | ok s4 => simp [errOf, firstErr]

theorem disk_try_from_error_iff (c : C_Disk) (e : HwinfoError) :
    Disk.try_from c = .error e ↔
      firstErr [errOf (c_char_to_string c.vendor), errOf (c_char_to_string c.model),
        errOf (c_char_to_string c.serialNumber),
        errOf (c_string_array_to_vec c.volumes)] = some e := by
  unfold Disk.try_from
  cases h1 : c_char_to_string c.vendor with
  | error e1 => simp [errOf, firstErr]
  | ok s1 =>
    cases h2 : c_char_to_string c.model with
    | error e2 => simp [errOf, firstErr]
    | ok s2 =>
      cases h3 : c_char_to_string c.serialNumber with
      | error e3 => simp [errOf, firstErr]
      | ok s3 =>
        cases h4 : c_string_array_to_vec c.volumes with
        | error e4 => simp [errOf, firstErr]
        | ok s4 => simp [errOf, firstErr]

theorem battery_try_from_error_iff (c : C_Battery) (e : HwinfoError) :
    Battery.try_from c = .error e ↔
      firstErr [errOf (c_char_to_string c.vendor), errOf (c_char_to_string c.model),
        errOf (c_char_to_string c.serialNumber),
        errOf (c_char_to_string c.technology)] = some e := by
  unfold Battery.try_from
  cases h1 : c_char_to_string c.vendor with
  | error e1 => simp [errOf, firstErr]
  | ok s1 =>
    cases h2 : c_char_to_string c.model with
    | error e2 => simp [errOf, firstErr]
    | ok s2 =>
      cases h3 : c_char_to_string c.serialNumber with
      | error e3 => simp [errOf, firstErr]
      | ok s3 =>
        cases h4 : c_char_to_string c.technology with
        | error e4 => simp [errOf, firstErr]
        | ok s4 => simp [errOf, firstErr]

theorem network_try_from_error_iff (c : C_Network) (e : HwinfoError) :
    Network.try_from c = .error e ↔
      firstErr [errOf (c_char_to_string c.interfaceIndex), errOf (c_char_to_string c.description),
        errOf (c_char_to_string c.mac), errOf (c_char_to_string c.ip4),
        errOf (c_char_to_string c.ip6)] = some e := by
  unfold Network.try_from
  cases h1 : c_char_to_string c.interfaceIndex with
  | error e1 => simp [errOf, firstErr]
  | ok s1 =>
    cases h2 : c_char_to_string c.description with
    | error e2 => simp [errOf, firstErr]
    | ok s2 =>
      cases h3 : c_char_to_string c.mac with
      | error e3 => simp [errOf, firstErr]
      | ok s3 =>
        cases h4 : c_char_to_string c.ip4 with
        | error e4 => simp [errOf, firstErr]
        | ok s4 =>
          cases h5 : c_char_to_string c.ip6 with
          | error e5 => simp [errOf, firstErr]
          | ok s5 => simp [errOf, firstErr]

theorem memory_try_from_error_iff (c : C_MemoryInfo) (e : HwinfoError) :
    MemoryInfo.try_from c = .error e ↔
      ∃ mem, c.modules = some mem ∧ 0 < c.module_count ∧
        ∃ j, j < c.module_count.toNat ∧ RamModule.try_from (mem j) = .error e ∧
          ∀ i, i < j → ∃ r, RamModule.try_from (mem i) = .ok r := by
  constructor
  · intro h
    cases hs : c.modules with
    | none =>
      simp only [MemoryInfo.try_from, hs] at h
      cases h
    | some mem0 =>
      by_cases hpos : c.module_count ≤ 0
      · simp only [MemoryInfo.try_from, hs] at h
        rw [if_pos hpos] at h
        cases h
      · simp only [MemoryInfo.try_from, hs] at h
        rw [if_neg hpos] at h
        cases hcol : collectExcept RamModule.try_from
            ((List.range c.module_count.toNat).map mem0) with
        | ok mods =>
          simp only [hcol] at h
          cases h
        | error e1 =>
          simp only [hcol] at h
          obtain rfl : e1 = e := Except.error.inj h
          obtain ⟨j, hj, hje, hlt⟩ :=
            (collectExcept_range_error_iff RamModule.try_from mem0 _ e1).mp hcol
          exact ⟨mem0, rfl, by omega, j, hj, hje, hlt⟩
  · rintro ⟨mem0, hs, hpos, j, hj, hje, hlt⟩
    have hcol : collectExcept RamModule.try_from
        ((List.range c.module_count.toNat).map mem0) = .error e :=
      (collectExcept_range_error_iff _ _ _ _).mpr ⟨j, hj, hje, hlt⟩
    simp only [MemoryInfo.try_from, hs]
    rw [if_neg (by omega), hcol]

theorem os_try_from_error_invalid (c : C_OS) (e : HwinfoError) :
    Os.try_from c = .error e → ∃ u, e = HwinfoError.InvalidString u := by
  intro h
  have hm := firstErr_mem _ _ ((os_try_from_error_iff c e).mp h)
  simp only [List.mem_cons, List.not_mem_nil, or_false] at hm
  rcases hm with h1 | h1 | h1 <;>
    exact c_char_to_string_error_invalid _ _ ((errOf_eq_some _ _).mp h1.symm)

theorem gpu_try_from_error_invalid (c : C_GPU) (e : HwinfoError) :
    Gpu.try_from c = .error e → ∃ u, e = HwinfoError.InvalidString u := by
  intro h
  have hm := firstErr_mem _ _ ((gpu_try_from_error_iff c e).mp h)
  simp only [List.mem_cons, List.not_mem_nil, or_false] at hm
  rcases hm with h1 | h1 | h1 | h1 | h1 <;>
    exact c_char_to_string_error_invalid _ _ ((errOf_eq_some _ _).mp h1.symm)

theorem ram_try_from_error_invalid (m : C_RAM_Module) (e : HwinfoError) :
    RamModule.try_from m = .error e → ∃ u, e = HwinfoError.InvalidString u := by
  intro h
  have hm := firstErr_mem _ _ ((ram_try_from_error_iff m e).mp h)
  simp only [List.mem_cons, List.not_mem_nil, or_false] at hm
  rcases hm with h1 | h1 | h1 | h1 <;>
    exact c_char_to_string_error_invalid _ _ ((errOf_eq_some _ _).mp h1.symm)

theorem mainboard_try_from_error_invalid (c : C_MainBoard) (e : HwinfoError) :
    MainBoard.try_from c = .error e → ∃ u, e = HwinfoError.InvalidString u := by
  intro h
  have hm := firstErr_mem _ _ ((mainboard_try_from_error_iff c e).mp h)
  simp only [List.mem_cons, List.not_mem_nil, or_false] at hm
  rcases hm with h1 | h1 | h1 | h1 <;>
    exact c_char_to_string_error_invalid _ _ ((errOf_eq_some _ _).mp h1.symm)

theorem disk_try_from_error_invalid (c : C_Disk) (e : HwinfoError) :
    Disk.try_from c = .error e → ∃ u, e = HwinfoError.InvalidString u := by
  intro h
  have hm := firstErr_mem _ _ ((disk_try_from_error_iff c e).mp h)
  simp only [List.mem_cons, List.not_mem_nil, or_false] at hm
  rcases hm with h1 | h1 | h1 | h1
  · exact c_char_to_string_error_invalid _ _ ((errOf_eq_some _ _).mp h1.symm)
  · exact c_char_to_string_error_invalid _ _ ((errOf_eq_some _ _).mp h1.symm)
  · exact c_char_to_string_error_invalid _ _ ((errOf_eq_some _ _).mp h1.symm)
  · exact c_string_array_to_vec_error_invalid _ _ ((errOf_eq_some _ _).mp h1.symm)

theorem battery_try_from_error_invalid (c : C_Battery) (e : HwinfoError) :
    Battery.try_from c = .error e → ∃ u, e = HwinfoError.InvalidString u := by
  intro h
  have hm := firstErr_mem _ _ ((battery_try_from_error_iff c e).mp h)
  simp only [List.mem_cons, List.not_mem_nil, or_false] at hm
  rcases hm with h1 | h1 | h1 | h1 <;>
    exact c_char_to_string_error_invalid _ _ ((errOf_eq_some _ _).mp h1.symm)

theorem network_try_from_error_invalid (c : C_Network) (e : HwinfoError) :
    Network.try_from c = .error e → ∃ u, e = HwinfoError.InvalidString u := by
  intro h
  have hm := firstErr_mem _ _ ((network_try_from_error_iff c e).mp h)
  simp only [List.mem_cons, List.not_mem_nil, or_false] at hm
  rcases hm with h1 | h1 | h1 | h1 | h1 <;>
    exact c_char_to_string_error_invalid _ _ ((errOf_eq_some _ _).mp h1.symm)

theorem memory_try_from_error_invalid (c : C_MemoryInfo) (e : HwinfoError) :
    MemoryInfo.try_from c = .error e → ∃ u, e = HwinfoError.InvalidString u := by
  intro h
  obtain ⟨mem0, -, -, j, -, hje, -⟩ := (memory_try_from_error_iff c e).mp h
  exact ram_try_from_error_invalid _ _ hje

/-- Claim C7: every entity converter short-circuits, failing with exactly the
first decode failure in field evaluation order (shown field-by-field for
every one of the nine converters via the ordered first-error
characterization); every such failure is an invalid-encoding error; and at
the query level, for every query whose acquisition succeeded, the failure
returned is exactly the first decode failure in element order (list queries:
first failing element, all earlier elements converting; singleton queries:
the converter's failure). -/
theorem invalid_text_first_failure :
    (∀ (c : C_CPU) (e : HwinfoError),
      Cpu.try_from c = .error e ↔
        (c_char_to_string c.vendor = .error e
         ∨ ((∃ s, c_char_to_string c.vendor = .ok s) ∧ c_char_to_string c.modelName = .error e)
         ∨ ((∃ s, c_char_to_string c.vendor = .ok s) ∧ (∃ s, c_char_to_string c.modelName = .ok s)
            ∧ c_string_array_to_vec c.flags = .error e)))
    ∧ (∀ (c : C_CPU) (e : HwinfoError),
      Cpu.try_from c = .error e → ∃ u, e = HwinfoError.InvalidString u)
    ∧ (∀ (env : CpusEnv) (p : Nat) (mem : Nat → C_CPU) (e : HwinfoError),
      0 < env.get_cpu_count → env.get_all_cpus = some (p, mem) →
      ((cpus env).1 = .error e ↔
        ∃ j, j < env.get_cpu_count.toNat ∧ Cpu.try_from (mem j) = .error e ∧
          ∀ i, i < j → ∃ r, Cpu.try_from (mem i) = .ok r))
    ∧ (∀ (c : C_OS) (e : HwinfoError),
      Os.try_from c = .error e ↔
        firstErr [errOf (c_char_to_string c.name), errOf (c_char_to_string c.version),
          errOf (c_char_to_string c.kernel)] = some e)
    ∧ (∀ (c : C_GPU) (e : HwinfoError),
      Gpu.try_from c = .error e ↔
        firstErr [errOf (c_char_to_string c.vendor), errOf (c_char_to_string c.name),
          errOf (c_char_to_string c.driverVersion), errOf (c_char_to_string c.vendor_id),
          errOf (c_char_to_string c.device_id)] = some e)
    ∧ (∀ (m : C_RAM_Module) (e : HwinfoError),
      RamModule.try_from m = .error e ↔
        firstErr [errOf (c_char_to_string m.vendor), errOf (c_char_to_string m.name),
          errOf (c_char_to_string m.model), errOf (c_char_to_string m.serial_number)] = some e)
    ∧ (∀ (c : C_MainBoard) (e : HwinfoError),
      MainBoard.try_from c = .error e ↔
        firstErr [errOf (c_char_to_string c.vendor), errOf (c_char_to_string c.name),
          errOf (c_char_to_string c.version), errOf (c_char_to_string c.serialNumber)] = some e)
    ∧ (∀ (c : C_Disk) (e : HwinfoError),
      Disk.try_from c = .error e ↔
        firstErr [errOf (c_char_to_string c.vendor), errOf (c_char_to_string c.model),
          errOf (c_char_to_string c.serialNumber),
          errOf (c_string_array_to_vec c.volumes)] = some e)
    ∧ (∀ (c : C_Battery) (e : HwinfoError),
      Battery.try_from c = .error e ↔
        firstErr [errOf (c_char_to_string c.vendor), errOf (c_char_to_string c.model),
          errOf (c_char_to_string c.serialNumber),
          errOf (c_char_to_string c.technology)] = some e)
    ∧ (∀ (c : C_Network) (e : HwinfoError),
      Network.try_from c = .error e ↔
        firstErr [errOf (c_char_to_string c.interfaceIndex), errOf (c_char_to_string c.description),
          errOf (c_char_to_string c.mac), errOf (c_char_to_string c.ip4),
          errOf (c_char_to_string c.ip6)] = some e)
    ∧ (∀ (c : C_MemoryInfo) (e : HwinfoError),
      MemoryInfo.try_from c = .error e ↔
        ∃ mem, c.modules = some mem ∧ 0 < c.module_count ∧
          ∃ j, j < c.module_count.toNat ∧ RamModule.try_from (mem j) = .error e ∧
            ∀ i, i < j → ∃ r, RamModule.try_from (mem i) = .ok r)
    ∧ (∀ (c : C_OS) (e : HwinfoError),
      Os.try_from c = .error e → ∃ u, e = HwinfoError.InvalidString u)
    ∧ (∀ (c : C_GPU) (e : HwinfoError),
      Gpu.try_from c = .error e → ∃ u, e = HwinfoError.InvalidString u)
    ∧ (∀ (m : C_RAM_Module) (e : HwinfoError),
      RamModule.try_from m = .error e → ∃ u, e = HwinfoError.InvalidString u)
    ∧ (∀ (c : C_MainBoard) (e : HwinfoError),
      MainBoard.try_from c = .error e → ∃ u, e = HwinfoError.InvalidString u)
    ∧ (∀ (c : C_Disk) (e : HwinfoError),
      Disk.try_from c = .error e → ∃ u, e = HwinfoError.InvalidString u)
    ∧ (∀ (c : C_Battery) (e : HwinfoError),
      Battery.try_from c = .error e → ∃ u, e = HwinfoError.InvalidString u)
    ∧ (∀ (c : C_Network) (e : HwinfoError),
      Network.try_from c = .error e → ∃ u, e = HwinfoError.InvalidString u)
    ∧ (∀ (c : C_MemoryInfo) (e : HwinfoError),
      MemoryInfo.try_from c = .error e → ∃ u, e = HwinfoError.InvalidString u)
    ∧ (∀ (env : GpusEnv) (p : Nat) (mem : Nat → C_GPU) (e : HwinfoError),
      0 < env.get_gpu_count → env.get_all_gpus = some (p, mem) →
      ((gpus env).1 = .error e ↔
        ∃ j, j < env.get_gpu_count.toNat ∧ Gpu.try_from (mem j) = .error e ∧
          ∀ i, i < j → ∃ r, Gpu.try_from (mem i) = .ok r))
    ∧ (∀ (env : DisksEnv) (p : Nat) (mem : Nat → C_Disk) (e : HwinfoError),
      0 < env.get_disk_count → env.get_all_disks = some (p, mem) →
      ((disks env).1 = .error e ↔
        ∃ j, j < env.get_disk_count.toNat ∧ Disk.try_from (mem j) = .error e ∧
          ∀ i, i < j → ∃ r, Disk.try_from (mem i) = .ok r))
    ∧ (∀ (env : BatteriesEnv) (p : Nat) (mem : Nat → C_Battery) (e : HwinfoError),
      0 < env.get_battery_count → env.get_all_batteries = some (p, mem) →
      ((batteries env).1 = .error e ↔
        ∃ j, j < env.get_battery_count.toNat ∧ Battery.try_from (mem j) = .error e ∧
          ∀ i, i < j → ∃ r, Battery.try_from (mem i) = .ok r))
    ∧ (∀ (env : NetworksEnv) (p : Nat) (mem : Nat → C_Network) (e : HwinfoError),
      0 < env.get_network_count → env.get_all_networks = some (p, mem) →
      ((networks env).1 = .error e ↔
        ∃ j, j < env.get_network_count.toNat ∧ Network.try_from (mem j) = .error e ∧
          ∀ i, i < j → ∃ r, Network.try_from (mem i) = .ok r))
    ∧ (∀ (env : OsEnv) (p : Nat) (c : C_OS) (e : HwinfoError),
      env.get_os_info = some (p, c) →
      ((os_info env).1 = .error e ↔ Os.try_from c = .error e))
    ∧ (∀ (env : MemoryEnv) (p : Nat) (c : C_MemoryInfo) (e : HwinfoError),
      env.get_memory_info = some (p, c) →
      ((memory_info env).1 = .error e ↔ MemoryInfo.try_from c = .error e))
    ∧ (∀ (env : MainBoardEnv) (p : Nat) (c : C_MainBoard) (e : HwinfoError),
      env.get_mainboard_info = some (p, c) →
      ((mainboard_info env).1 = .error e ↔ MainBoard.try_from c = .error e)) := by
  refine ⟨cpu_try_from_error_iff, ?_, ?_, os_try_from_error_iff, gpu_try_from_error_iff,
    ram_try_from_error_iff, mainboard_try_from_error_iff, disk_try_from_error_iff,
    battery_try_from_error_iff, network_try_from_error_iff, memory_try_from_error_iff,
    os_try_from_error_invalid, gpu_try_from_error_invalid, ram_try_from_error_invalid,
    mainboard_try_from_error_invalid, disk_try_from_error_invalid, battery_try_from_error_invalid,
    network_try_from_error_invalid, memory_try_from_error_invalid, ?_, ?_, ?_, ?_, ?_, ?_, ?_⟩
  · intro c e h
    rcases (cpu_try_from_error_iff c e).mp h with hv | ⟨-, hm⟩ | ⟨-, -, hf⟩
    · exact c_char_to_string_error_invalid _ _ hv
    · exact c_char_to_string_error_invalid _ _ hm
    · exact c_string_array_to_vec_error_invalid _ _ hf
  · intro env p mem e h1 h2
    rw [show (cpus env).1 =
          collectExcept Cpu.try_from ((List.range env.get_cpu_count.toNat).map mem) from by
        simp only [cpus]
        rw [if_neg (by omega), h2]]
    exact collectExcept_range_error_iff _ _ _ _
  · intro env p mem e h1 h2
    rw [show (gpus env).1 =
          collectExcept Gpu.try_from ((List.range env.get_gpu_count.toNat).map mem) from by
        simp only [gpus]
        rw [if_neg (by omega), h2]]
    exact collectExcept_range_error_iff _ _ _ _
  · intro env p mem e h1 h2
    rw [show (disks env).1 =
          collectExcept Disk.try_from ((List.range env.get_disk_count.toNat).map mem) from by
        simp only [disks]
        rw [if_neg (by omega), h2]]
    exact collectExcept_range_error_iff _ _ _ _
  · intro env p mem e h1 h2
    rw [show (batteries env).1 =
          collectExcept Battery.try_from ((List.range env.get_battery_count.toNat).map mem) from by
        simp only [batteries]
        rw [if_neg (by omega), h2]]
    exact collectExcept_range_error_iff _ _ _ _
  · intro env p mem e h1 h2
    rw [show (networks env).1 =
          collectExcept Network.try_from ((List.range env.get_network_count.toNat).map mem) from by
        simp only [networks]
        rw [if_neg (by omega), h2]]
    exact collectExcept_range_error_iff _ _ _ _
  · intro env p c e h
    simp only [os_info, h]
  · intro env p c e h
    simp only [memory_info, h]
  · intro env p c e h
    simp only [mainboard_info, h]

theorem invalid_text_first_failure_witness :
    Cpu.try_from ⟨0, some [255], some [65], 0, 0, 0, 0, 0, 0, 0, ⟨none, 0⟩⟩ =
      .error (HwinfoError.InvalidString ⟨0⟩) :=
  (invalid_text_first_failure.1 ⟨0, some [255], some [65], 0, 0, 0, 0, 0, 0, 0, ⟨none, 0⟩⟩
    (HwinfoError.InvalidString ⟨0⟩)).mpr (Or.inl (by decide))

/-- A foreign text pointer is well formed when it decodes successfully: it is
null (decoding to empty text) or points at valid UTF-8 bytes. -/
def StrOk (o : Option (List Nat)) : Prop :=
  ∃ s, c_char_to_string o = .ok s

/-- A foreign string-array descriptor is a valid instance: non-negative count,
non-null pointer whenever the count is positive, and every one of the `count`
elements well formed. -/
def ArrWF (a : C_StringArray) : Prop :=
  0 ≤ a.count ∧ (0 < a.count → a.strings ≠ none) ∧
    ∀ mem, a.strings = some mem → ∀ i, i < a.count.toNat → StrOk (mem i)

/-- A foreign `C_CPU` instance whose text fields are all well formed. -/
def CpuWF (c : C_CPU) : Prop :=
  StrOk c.vendor ∧ StrOk c.modelName ∧ ArrWF c.flags

/-- A foreign `C_RAM_Module` instance whose text fields are all well formed. -/
def RamWF (m : C_RAM_Module) : Prop :=
  StrOk m.vendor ∧ StrOk m.name ∧ StrOk m.model ∧ StrOk m.serial_number

/-- A foreign `C_MemoryInfo` instance that is valid: non-negative module
count, non-null module pointer whenever the count is positive, and every one
of the `module_count` foreign modules well formed. -/
def MemWF (c : C_MemoryInfo) : Prop :=
  0 ≤ c.module_count ∧ (0 < c.module_count → c.modules ≠ none) ∧
    ∀ mem, c.modules = some mem → ∀ i, i < c.module_count.toNat → RamWF (mem i)

theorem collectExcept_all_ok {α β ε : Type} (f : α → Except ε β) (l : List α)
    (h : ∀ x ∈ l, ∃ b, f x = .ok b) : ∃ r, collectExcept f l = .ok r := by
  induction l with
  | nil => exact ⟨[], rfl⟩
  | cons a l ih =>
    obtain ⟨b, hb⟩ := h a (List.mem_cons_self a l)
    obtain ⟨r, hr⟩ := ih (fun x hx => h x (List.mem_cons_of_mem a hx))
    exact ⟨b :: r, by simp only [collectExcept, hb, hr]⟩

theorem c_string_array_to_vec_wf (a : C_StringArray) (h : ArrWF a) :
    ∃ fl, c_string_array_to_vec a = .ok fl ∧ fl.length = a.count.toNat ∧
      ∀ mem, a.strings = some mem →
        List.Forall₂ (fun ptr s => c_char_to_string ptr = .ok s)
          ((List.range a.count.toNat).map mem) fl := by
  obtain ⟨hc0, hnn, helem⟩ := h
  cases hs : a.strings with
  | none =>
    have hc : a.count = 0 := by
      by_contra hne
      exact hnn (by omega) hs
    refine ⟨[], by simp [c_string_array_to_vec, hs], by simp [hc], ?_⟩
    intro mem hmem
    cases hmem
  | some mem0 =>
    by_cases hpos : a.count ≤ 0
    · have hc : a.count = 0 := le_antisymm hpos hc0
      refine ⟨[], by simp [c_string_array_to_vec, hs, hpos], by simp [hc], ?_⟩
      intro mem hmem
      obtain rfl : mem0 = mem := Option.some.inj hmem
      rw [hc]
      exact List.Forall₂.nil
    · have hall : ∀ x ∈ (List.range a.count.toNat).map mem0,
          ∃ b, c_char_to_string x = .ok b := by
        intro x hx
        simp only [List.mem_map, List.mem_range] at hx
        obtain ⟨i, hi, rfl⟩ := hx
        exact helem mem0 hs i hi
      obtain ⟨fl, hfl⟩ := collectExcept_all_ok _ _ hall
      have hfa := (collectExcept_ok_iff _ _ _).mp hfl
      refine ⟨fl, ?_, ?_, ?_⟩
      · simp only [c_string_array_to_vec, hs]
        rw [if_neg hpos]
        exact hfl
      · have := List.Forall₂.length_eq hfa
        simpa using this.symm
      · intro mem hmem
        obtain rfl : mem0 = mem := Option.some.inj hmem
        exact hfa

theorem ram_module_roundtrip (m : C_RAM_Module) (h : RamWF m) :
    ∃ r, RamModule.try_from m = .ok r ∧ r.id = m.id ∧
      c_char_to_string m.vendor = .ok r.vendor ∧
      c_char_to_string m.name = .ok r.name ∧
      c_char_to_string m.model = .ok r.model ∧
      c_char_to_string m.serial_number = .ok r.serial_number ∧
      r.total_bytes = m.total_Bytes ∧ r.frequency_hz = m.frequency_Hz := by
  obtain ⟨⟨sv, hv⟩, ⟨sn, hn⟩, ⟨sm, hm⟩, ⟨ss, hs⟩⟩ := h
  refine ⟨⟨m.id, sv, sn, sm, ss, m.total_Bytes, m.frequency_Hz⟩, ?_, rfl, hv, hn, hm, hs, rfl, rfl⟩
  simp only [RamModule.try_from, hv, hn, hm, hs]

/-- Byte string "Corsair" from the spec's memory-query scenario. -/
def corsair : List Nat := [67, 111, 114, 115, 97, 105, 114]

/-- The foreign memory-query result of the spec's scenario: the stated byte
totals and two RAM modules (ids 0 and 1, vendor "Corsair", same size and
frequency). -/
def memScenario : C_MemoryInfo :=
  { total_Bytes := 17179869184, free_Bytes := 8589934592, available_Bytes := 10737418240,
    modules := some (fun i =>
      { id := Int.ofNat i, vendor := some corsair, name := none, model := none,
        serial_number := none, total_Bytes := 8589934592, frequency_Hz := 3200000000 }),
    module_count := 2 }

/-- The local record the scenario requires: the same literal values and
exactly two modules in foreign array order. -/
def memScenarioExpected : MemoryInfo :=
  { total_bytes := 17179869184, free_bytes := 8589934592, available_bytes := 10737418240,
    modules := [
      { id := 0, vendor := corsair, name := [], model := [], serial_number := [],
        total_bytes := 8589934592, frequency_hz := 3200000000 },
      { id := 1, vendor := corsair, name := [], model := [], serial_number := [],
        total_bytes := 8589934592, frequency_hz := 3200000000 }] }

/-- A foreign `C_OS` instance whose text fields are all well formed. -/
def OsWF (c : C_OS) : Prop :=
  StrOk c.name ∧ StrOk c.version ∧ StrOk c.kernel

/-- A foreign `C_GPU` instance whose text fields are all well formed. -/
def GpuWF (c : C_GPU) : Prop :=
  StrOk c.vendor ∧ StrOk c.name ∧ StrOk c.driverVersion ∧ StrOk c.vendor_id ∧ StrOk c.device_id

/-- A foreign `C_MainBoard` instance whose text fields are all well formed. -/
def MainBoardWF (c : C_MainBoard) : Prop :=
  StrOk c.vendor ∧ StrOk c.name ∧ StrOk c.version ∧ StrOk c.serialNumber

/-- A foreign `C_Disk` instance that is valid: well-formed text fields and a
valid volumes descriptor. -/
def DiskWF (c : C_Disk) : Prop :=
  StrOk c.vendor ∧ StrOk c.model ∧ StrOk c.serialNumber ∧ ArrWF c.volumes

/-- A foreign `C_Battery` instance whose text fields are all well formed. -/
def BatteryWF (c : C_Battery) : Prop :=
  StrOk c.vendor ∧ StrOk c.model ∧ StrOk c.serialNumber ∧ StrOk c.technology

/-- A foreign `C_Network` instance whose text fields are all well formed. -/
def NetworkWF (c : C_Network) : Prop :=
  StrOk c.interfaceIndex ∧ StrOk c.description ∧ StrOk c.mac ∧ StrOk c.ip4 ∧ StrOk c.ip6

theorem os_roundtrip (c : C_OS) (h : OsWF c) :
    ∃ r, Os.try_from c = .ok r ∧
      c_char_to_string c.name = .ok r.name ∧
      c_char_to_string c.version = .ok r.version ∧
      c_char_to_string c.kernel = .ok r.kernel ∧
      r.is_32_bit = c.is32bit ∧ r.is_64_bit = c.is64bit ∧
      r.is_little_endian = c.isLittleEndian := by
  obtain ⟨⟨s1, h1⟩, ⟨s2, h2⟩, ⟨s3, h3⟩⟩ := h
  refine ⟨⟨s1, s2, s3, c.is32bit, c.is64bit, c.isLittleEndian⟩, ?_, h1, h2, h3, rfl, rfl, rfl⟩
  simp only [Os.try_from, h1, h2, h3]

theorem gpu_roundtrip (c : C_GPU) (h : GpuWF c) :
    ∃ r, Gpu.try_from c = .ok r ∧ r.id = c.id ∧
      c_char_to_string c.vendor = .ok r.vendor ∧
      c_char_to_string c.name = .ok r.name ∧
      c_char_to_string c.driverVersion = .ok r.driver_version ∧
      c_char_to_string c.vendor_id = .ok r.vendor_id ∧
      c_char_to_string c.device_id = .ok r.device_id ∧
      r.memory_bytes = c.memory_Bytes ∧ r.frequency_mhz = c.frequency_MHz ∧
      r.num_cores = c.num_cores := by
  obtain ⟨⟨s1, h1⟩, ⟨s2, h2⟩, ⟨s3, h3⟩, ⟨s4, h4⟩, ⟨s5, h5⟩⟩ := h
  refine ⟨⟨c.id, s1, s2, s3, c.memory_Bytes, c.frequency_MHz, c.num_cores, s4, s5⟩,
    ?_, rfl, h1, h2, h3, h4, h5, rfl, rfl, rfl⟩
  simp only [Gpu.try_from, h1, h2, h3, h4, h5]

theorem mainboard_roundtrip (c : C_MainBoard) (h : MainBoardWF c) :
    ∃ r, MainBoard.try_from c = .ok r ∧
      c_char_to_string c.vendor = .ok r.vendor ∧
      c_char_to_string c.name = .ok r.name ∧
      c_char_to_string c.version = .ok r.version ∧
      c_char_to_string c.serialNumber = .ok r.serial_number := by
  obtain ⟨⟨s1, h1⟩, ⟨s2, h2⟩, ⟨s3, h3⟩, ⟨s4, h4⟩⟩ := h
  refine ⟨⟨s1, s2, s3, s4⟩, ?_, h1, h2, h3, h4⟩
  simp only [MainBoard.try_from, h1, h2, h3, h4]

theorem disk_roundtrip (c : C_Disk) (h : DiskWF c) :
    ∃ r, Disk.try_from c = .ok r ∧ r.id = c.id ∧
      c_char_to_string c.vendor = .ok r.vendor ∧
      c_char_to_string c.model = .ok r.model ∧
      c_char_to_string c.serialNumber = .ok r.serial_number ∧
      r.size_bytes = c.size_Bytes ∧ r.free_size_bytes = c.free_size_Bytes ∧
      r.volumes.length = c.volumes.count.toNat ∧
      ∀ mem, c.volumes.strings = some mem →
        List.Forall₂ (fun ptr s => c_char_to_string ptr = .ok s)
          ((List.range c.volumes.count.toNat).map mem) r.volumes := by
  obtain ⟨⟨s1, h1⟩, ⟨s2, h2⟩, ⟨s3, h3⟩, harr⟩ := h
  obtain ⟨vl, hvl, hlen, hfa⟩ := c_string_array_to_vec_wf c.volumes harr
  refine ⟨⟨c.id, s1, s2, s3, c.size_Bytes, c.free_size_Bytes, vl⟩,
    ?_, rfl, h1, h2, h3, rfl, rfl, hlen, hfa⟩
  simp only [Disk.try_from, h1, h2, h3, hvl]

theorem battery_roundtrip (c : C_Battery) (h : BatteryWF c) :
    ∃ r, Battery.try_from c = .ok r ∧ r.id = c.id ∧
      c_char_to_string c.vendor = .ok r.vendor ∧
      c_char_to_string c.model = .ok r.model ∧
      c_char_to_string c.serialNumber = .ok r.serial_number ∧
      c_char_to_string c.technology = .ok r.technology ∧
      r.energy_full_mwh = c.energyFull ∧ r.energy_now_mwh = c.energyNow ∧
      r.is_charging = c.charging := by
  obtain ⟨⟨s1, h1⟩, ⟨s2, h2⟩, ⟨s3, h3⟩, ⟨s4, h4⟩⟩ := h
  refine ⟨⟨c.id, s1, s2, s3, s4, c.energyFull, c.energyNow, c.charging⟩,
    ?_, rfl, h1, h2, h3, h4, rfl, rfl, rfl⟩
  simp only [Battery.try_from, h1, h2, h3, h4]

theorem network_roundtrip (c : C_Network) (h : NetworkWF c) :
    ∃ r, Network.try_from c = .ok r ∧
      c_char_to_string c.interfaceIndex = .ok r.interface_index ∧
      c_char_to_string c.description = .ok r.description ∧
      c_char_to_string c.mac = .ok r.mac_address ∧
      c_char_to_string c.ip4 = .ok r.ipv4_address ∧
      c_char_to_string c.ip6 = .ok r.ipv6_address := by
  obtain ⟨⟨s1, h1⟩, ⟨s2, h2⟩, ⟨s3, h3⟩, ⟨s4, h4⟩, ⟨s5, h5⟩⟩ := h
  refine ⟨⟨s1, s2, s3, s4, s5⟩, ?_, h1, h2, h3, h4, h5⟩
  simp only [Network.try_from, h1, h2, h3, h4, h5]

/-- Claim C2: conversion of a valid foreign struct (well-formed text fields,
consistent count/pointer pairs) succeeds and round-trips — scalars (integers
and booleans) verbatim, text fields equal to the decoded foreign bytes, array
fields (flags, volumes, RAM modules) of length equal to the foreign count
with element-wise equal content in foreign order — shown for every entity
converter (Cpu, RamModule, MemoryInfo, Os, Gpu, MainBoard, Disk, Battery,
Network), and instantiated on the spec's concrete memory-query scenario. -/
theorem conversion_roundtrip :
    (∀ c : C_CPU, CpuWF c → ∃ r, Cpu.try_from c = .ok r ∧ r.id = c.id
      ∧ c_char_to_string c.vendor = .ok r.vendor
      ∧ c_char_to_string c.modelName = .ok r.model_name
      ∧ r.num_physical_cores = c.numPhysicalCores
      ∧ r.num_logical_cores = c.numLogicalCores
      ∧ r.max_clock_speed_mhz = c.maxClockSpeed_MHz
      ∧ r.regular_clock_speed_mhz = c.regularClockSpeed_MHz
      ∧ r.l1_cache_size_bytes = c.L1CacheSize_Bytes
      ∧ r.l2_cache_size_bytes = c.L2CacheSize_Bytes
      ∧ r.l3_cache_size_bytes = c.L3CacheSize_Bytes
      ∧ r.flags.length = c.flags.count.toNat
      ∧ ∀ mem, c.flags.strings = some mem →
          List.Forall₂ (fun ptr s => c_char_to_string ptr = .ok s)
            ((List.range c.flags.count.toNat).map mem) r.flags)
    ∧ (∀ m : C_RAM_Module, RamWF m → ∃ r, RamModule.try_from m = .ok r ∧ r.id = m.id ∧
        c_char_to_string m.vendor = .ok r.vendor ∧
        c_char_to_string m.name = .ok r.name ∧
        c_char_to_string m.model = .ok r.model ∧
        c_char_to_string m.serial_number = .ok r.serial_number ∧
        r.total_bytes = m.total_Bytes ∧ r.frequency_hz = m.frequency_Hz)
    ∧ (∀ cm : C_MemoryInfo, MemWF cm → ∃ r, MemoryInfo.try_from cm = .ok r
        ∧ r.total_bytes = cm.total_Bytes ∧ r.free_bytes = cm.free_Bytes
        ∧ r.available_bytes = cm.available_Bytes
        ∧ r.modules.length = cm.module_count.toNat
        ∧ ∀ mem, cm.modules = some mem →
            List.Forall₂ (fun cmod rmod => RamModule.try_from cmod = .ok rmod)
              ((List.range cm.module_count.toNat).map mem) r.modules)
    ∧ (memory_info ⟨some (7, memScenario)⟩).1 = .ok memScenarioExpected
    ∧ (∀ c : C_OS, OsWF c → ∃ r, Os.try_from c = .ok r ∧
        c_char_to_string c.name = .ok r.name ∧
        c_char_to_string c.version = .ok r.version ∧
        c_char_to_string c.kernel = .ok r.kernel ∧
        r.is_32_bit = c.is32bit ∧ r.is_64_bit = c.is64bit ∧
        r.is_little_endian = c.isLittleEndian)
    ∧ (∀ c : C_GPU, GpuWF c → ∃ r, Gpu.try_from c = .ok r ∧ r.id = c.id ∧
        c_char_to_string c.vendor = .ok r.vendor ∧
        c_char_to_string c.name = .ok r.name ∧
        c_char_to_string c.driverVersion = .ok r.driver_version ∧
        c_char_to_string c.vendor_id = .ok r.vendor_id ∧
        c_char_to_string c.device_id = .ok r.device_id ∧
        r.memory_bytes = c.memory_Bytes ∧ r.frequency_mhz = c.frequency_MHz ∧
        r.num_cores = c.num_cores)
    ∧ (∀ c : C_MainBoard, MainBoardWF c → ∃ r, MainBoard.try_from c = .ok r ∧
        c_char_to_string c.vendor = .ok r.vendor ∧
        c_char_to_string c.name = .ok r.name ∧
        c_char_to_string c.version = .ok r.version ∧
        c_char_to_string c.serialNumber = .ok r.serial_number)
    ∧ (∀ c : C_Disk, DiskWF c → ∃ r, Disk.try_from c = .ok r ∧ r.id = c.id ∧
        c_char_to_string c.vendor = .ok r.vendor ∧
        c_char_to_string c.model = .ok r.model ∧
        c_char_to_string c.serialNumber = .ok r.serial_number ∧
        r.size_bytes = c.size_Bytes ∧ r.free_size_bytes = c.free_size_Bytes ∧
        r.volumes.length = c.volumes.count.toNat ∧
        ∀ mem, c.volumes.strings = some mem →
          List.Forall₂ (fun ptr s => c_char_to_string ptr = .ok s)
            ((List.range c.volumes.count.toNat).map mem) r.volumes)
    ∧ (∀ c : C_Battery, BatteryWF c → ∃ r, Battery.try_from c = .ok r ∧ r.id = c.id ∧
        c_char_to_string c.vendor = .ok r.vendor ∧
        c_char_to_string c.model = .ok r.model ∧
        c_char_to_string c.serialNumber = .ok r.serial_number ∧
        c_char_to_string c.technology = .ok r.technology ∧
        r.energy_full_mwh = c.energyFull ∧ r.energy_now_mwh = c.energyNow ∧
        r.is_charging = c.charging)
    ∧ (∀ c : C_Network, NetworkWF c → ∃ r, Network.try_from c = .ok r ∧
        c_char_to_string c.interfaceIndex = .ok r.interface_index ∧
        c_char_to_string c.description = .ok r.description ∧
        c_char_to_string c.mac = .ok r.mac_address ∧
        c_char_to_string c.ip4 = .ok r.ipv4_address ∧
        c_char_to_string c.ip6 = .ok r.ipv6_address) := by
  refine ⟨?_, ram_module_roundtrip, ?_, by decide, os_roundtrip, gpu_roundtrip,
    mainboard_roundtrip, disk_roundtrip, battery_roundtrip, network_roundtrip⟩
  · intro c hc
    obtain ⟨⟨sv, hv⟩, ⟨sm, hm⟩, harr⟩ := hc
    obtain ⟨fl, hfl, hlen, hfa⟩ := c_string_array_to_vec_wf c.flags harr
    refine ⟨⟨c.id, sv, sm, c.numPhysicalCores, c.numLogicalCores, c.maxClockSpeed_MHz,
      c.regularClockSpeed_MHz, c.L1CacheSize_Bytes, c.L2CacheSize_Bytes, c.L3CacheSize_Bytes, fl⟩,
      ?_, rfl, hv, hm, rfl, rfl, rfl, rfl, rfl, rfl, rfl, hlen, hfa⟩
    simp only [Cpu.try_from, hv, hm, hfl]
  · intro cm hwf
    obtain ⟨hc0, hnn, helem⟩ := hwf
    cases hs : cm.modules with
    | none =>
      have hc : cm.module_count = 0 := by
        by_contra hne
        exact hnn (by omega) hs
      refine ⟨⟨cm.total_Bytes, cm.free_Bytes, cm.available_Bytes, []⟩, ?_, rfl, rfl, rfl,
        by simp [hc], ?_⟩
      · simp [MemoryInfo.try_from, hs]
      · intro mem hmem
        cases hmem
    | some mem0 =>
      by_cases hpos : cm.module_count ≤ 0
      · have hc : cm.module_count = 0 := le_antisymm hpos hc0
        refine ⟨⟨cm.total_Bytes, cm.free_Bytes, cm.available_Bytes, []⟩, ?_, rfl, rfl, rfl,
          by simp [hc], ?_⟩
        · simp [MemoryInfo.try_from, hs, hpos]
        · intro mem hmem
          obtain rfl : mem0 = mem := Option.some.inj hmem
          rw [hc]
          exact List.Forall₂.nil
      · have hall : ∀ x ∈ (List.range cm.module_count.toNat).map mem0,
            ∃ b, RamModule.try_from x = .ok b := by
          intro x hx
          simp only [List.mem_map, List.mem_range] at hx
          obtain ⟨i, hi, rfl⟩ := hx
          obtain ⟨r, hr, -⟩ := ram_module_roundtrip (mem0 i) (helem mem0 hs i hi)
          exact ⟨r, hr⟩
        obtain ⟨mods, hmods⟩ := collectExcept_all_ok _ _ hall
        have hfa := (collectExcept_ok_iff _ _ _).mp hmods
        refine ⟨⟨cm.total_Bytes, cm.free_Bytes, cm.available_Bytes, mods⟩, ?_, rfl, rfl, rfl,
          ?_, ?_⟩
        · simp only [MemoryInfo.try_from, hs]
          rw [if_neg hpos, hmods]
        · have := List.Forall₂.length_eq hfa
          simpa using this.symm
        · intro mem hmem
          obtain rfl : mem0 = mem := Option.some.inj hmem
          exact hfa

theorem conversion_roundtrip_witness :
    RamWF ⟨4, some [67], none, none, none, 10, 20⟩
    ∧ ∃ r, RamModule.try_from ⟨4, some [67], none, none, none, 10, 20⟩ = .ok r
        ∧ r.id = (4 : Int)
        ∧ c_char_to_string (some [67]) = .ok r.vendor
        ∧ c_char_to_string none = .ok r.name
        ∧ c_char_to_string none = .ok r.model
        ∧ c_char_to_string none = .ok r.serial_number
        ∧ r.total_bytes = (10 : Int) ∧ r.frequency_hz = (20 : Int) :=
  ⟨⟨⟨[67], rfl⟩, ⟨[], rfl⟩, ⟨[], rfl⟩, ⟨[], rfl⟩⟩,
   conversion_roundtrip.2.1 ⟨4, some [67], none, none, none, 10, 20⟩
     ⟨⟨[67], rfl⟩, ⟨[], rfl⟩, ⟨[], rfl⟩, ⟨[], rfl⟩⟩⟩
